import Mathlib

/-!
Verification of the guided bootstrap questionnaire
(samcli/commands/pipeline/bootstrap/guided_context.py).

The interactive flow is embedded shallowly: terminal input is a finite
script of lines (List String), each prompt consumes lines from the front
of the script, and every handler is a pure function from the current
answer state and the remaining script to a result.  A result records the
updated state, the unconsumed script, and a trace of the questions that
were actually asked (plus the guidance messages echoed by the URL
validation gate), or else that the process exited via sys.exit, that the
script ran out of lines, or that the Python code would have raised an
unhandled exception.  Loops that the source writes as unbounded while
loops or self-recursion are given an explicit fuel parameter; every loop
iteration consumes at least one script line, so a fuel of one more than
the script length is always enough, and call sites inside run use
exactly that.
-/

/-- Python string constant GITHUB_ACTIONS. -/
def GITHUB_ACTIONS : String := "github-actions"

/-- Python string constant GITLAB. -/
def GITLAB : String := "gitlab"

/-- Python string constant BITBUCKET. -/
def BITBUCKET : String := "bitbucket-pipelines"

/-- Python string constant OPEN_ID_CONNECT. -/
def OPEN_ID_CONNECT : String := "oidc"

/-- Python string constant IAM. -/
def IAM : String := "iam"

/-- Python truthiness of an Optional[str]: None and the empty string are
falsy, every other string is truthy. -/
def truthy : Option String → Bool
  | none => false
  | some v => !(v.data.isEmpty)

/-- Rendering of an Optional[str] inside an f-string: Python prints None
as the four characters None. -/
def optStr : Option String → String
  | none => "None"
  | some v => v

/-- Boolean list-prefix test. -/
def listPrefix : List Char → List Char → Bool
  | [], _ => true
  | _ :: _, [] => false
  | a :: as, b :: bs => a = b && listPrefix as bs

/-- Boolean list-infix test: pat occurs contiguously somewhere in l. -/
def listInfix (pat : List Char) : List Char → Bool
  | [] => listPrefix pat []
  | c :: rest => listPrefix pat (c :: rest) || listInfix pat rest

/-- Model of Python str.find(pat) != -1: pat occurs somewhere in s. -/
def strContainsSub (s pat : String) : Bool :=
  listInfix pat.data s.data

/-- OidcConfig record (oidc_config.py): the provider-independent OIDC
fields used by GuidedContext. -/
structure OidcConfig where
  oidc_provider : Option String
  oidc_provider_url : Option String
  oidc_client_id : Option String
deriving DecidableEq, Repr

/-- GitHubOidcConfig record: the GitHub-specific subject-claim fields. -/
structure GitHubOidcConfig where
  github_org : Option String
  github_repo : Option String
  deployment_branch : Option String
deriving DecidableEq, Repr

/-- GitLabOidcConfig record: the GitLab-specific subject-claim fields. -/
structure GitLabOidcConfig where
  gitlab_group : Option String
  gitlab_project : Option String
  deployment_branch : Option String
deriving DecidableEq, Repr

/-- BitbucketOidcConfig record: the Bitbucket-specific subject-claim
field. -/
structure BitbucketOidcConfig where
  bitbucket_repo_uuid : Option String
deriving DecidableEq, Repr

/-- The mutable answer state owned by GuidedContext: one field per
attribute that the question handlers read or write. -/
structure GuidedContext where
  profile : Option String
  stage_configuration_name : Option String
  pipeline_user_arn : Option String
  pipeline_execution_role_arn : Option String
  cloudformation_execution_role_arn : Option String
  artifacts_bucket_arn : Option String
  create_image_repository : Bool
  image_repository_arn : Option String
  region : Option String
  permissions_provider : Option String
  oidc_config : OidcConfig
  github_config : GitHubOidcConfig
  gitlab_config : GitLabOidcConfig
  bitbucket_config : BitbucketOidcConfig
  enable_oidc_option : Bool
deriving DecidableEq, Repr

/-- The external collaborators of the flow (spec section 6): the list of
named credential profiles, whether environment credentials are set, the
account-id resolver (which fails with a CredentialsError message), and
the default region. -/
structure Collab where
  profiles : List String
  hasEnvCreds : Bool
  getAccountId : Option String → Except String String
  defaultRegion : String

/-- Identifiers for the questions the flow can ask, used for the trace
of an execution; the two echo constructors record the guidance messages
printed by the URL validation gate, and echoCredentialsError records the
failure reason reported when account resolution fails. -/
inductive Q where
  | stageName
  | accountId
  | region
  | permissionsProvider
  | oidcProvider
  | oidcUrl
  | oidcClientId
  | githubOrg
  | githubRepo
  | deploymentBranch
  | gitlabGroup
  | gitlabProject
  | bitbucketUuid
  | pipelineUser
  | pipelineExecRole
  | cfnRole
  | artifactsBucket
  | imageRepository
  | echoEmptyUrlGuidance
  | echoSchemeGuidance
  | echoCredentialsError (msg : String)
deriving DecidableEq, Repr

/-- Result of running a handler on a state and an input script: the
handler finished normally, the process exited via sys.exit, the script
ran out of lines mid-prompt, or the Python code would have raised an
unhandled exception.  Every constructor carries the trace of questions
asked. -/
inductive Res where
  | ok : GuidedContext → List String → List Q → Res
  | exited : Nat → List Q → Res
  | stuck : List Q → Res
  | crashed : List Q → Res
deriving DecidableEq, Repr

/-- Prepend trace entries to a result. -/
def Res.prependTrace (t : List Q) : Res → Res
  | .ok s i t' => .ok s i (t ++ t')
  | .exited c t' => .exited c (t ++ t')
  | .stuck t' => .stuck (t ++ t')
  | .crashed t' => .crashed (t ++ t')

/-- Sequence a second handler after a result, accumulating traces;
exits, stuck scripts and crashes propagate. -/
def Res.bind (r : Res) (f : GuidedContext → List String → Res) : Res :=
  match r with
  | .ok s i t => (f s i).prependTrace t
  | .exited c t => .exited c t
  | .stuck t => .stuck t
  | .crashed t => .crashed t

/-- The trace of questions asked during a result. -/
def Res.trace : Res → List Q
  | .ok _ _ t => t
  | .exited _ t => t
  | .stuck t => t
  | .crashed t => t

/-- The final state of a normally finished result. -/
def Res.stateOf? : Res → Option GuidedContext
  | .ok s _ _ => some s
  | _ => none

/-- click.prompt with an optional default: consume script lines until
one is non-empty (an empty line yields the default when there is one,
and is re-asked when there is none, as click does). -/
def promptStr (dflt : Option String) : List String → Option (String × List String)
  | [] => none
  | i :: rest =>
    if i = "" then
      match dflt with
      | some d => some (d, rest)
      | none => promptStr none rest
    else some (i, rest)

/-- click.confirm with default False: y and n answer, an empty line
takes the default, anything else is re-asked. -/
def promptConfirm : List String → Option (Bool × List String)
  | [] => none
  | i :: rest =>
    if i = "y" then some (true, rest)
    else if i = "n" then some (false, rest)
    else if i = "" then some (false, rest)
    else promptConfirm rest

/-- click.prompt with type click.Choice: consume script lines until one
is a member of the choice set (an empty line yields the default when
there is one); the returned answer is guaranteed to be a listed choice
or the default. -/
def promptChoice (choices : List String) (dflt : Option String) :
    List String → Option (String × List String)
  | [] => none
  | i :: rest =>
    if i = "" then
      match dflt with
      | some d => some (d, rest)
      | none => promptChoice choices dflt rest
    else if choices.contains i then some (i, rest)
    else promptChoice choices dflt rest

/-- Helper of strToNat?: fold decimal digits into an accumulator,
failing on the first non-digit character. -/
def strToNatAux : List Char → Nat → Option Nat
  | [], acc => some acc
  | c :: cs, acc =>
    if c.isDigit then strToNatAux cs (acc * 10 + (c.toNat - 48)) else none

/-- Model of Python int() on the answer strings produced by the choice
prompts: parse a non-empty all-digit string, none models a ValueError. -/
def strToNat? (s : String) : Option Nat :=
  if s.data.isEmpty then none else strToNatAux s.data 0

/-- DEFAULT_OIDC_URLS dict lookup: none models a Python KeyError, the
inner Option models the stored value (Bitbucket maps to Python None). -/
def DEFAULT_OIDC_URLS : String → Option (Option String)
  | "github-actions" => some (some "https://token.actions.githubusercontent.com")
  | "gitlab" => some (some "https://gitlab.com")
  | "bitbucket-pipelines" => some none
  | _ => none

/-- DEFAULT_CLIENT_IDS dict lookup, with the same Option layering as
DEFAULT_OIDC_URLS. -/
def DEFAULT_CLIENT_IDS : String → Option (Option String)
  | "github-actions" => some (some "sts.amazonaws.com")
  | "gitlab" => some (some "https://gitlab.com")
  | "bitbucket-pipelines" => some none
  | _ => none

/-- The credential-source choice set offered by _prompt_account_id:
option 1 for environment credentials when available, one numbered option
per named profile starting at 2, and q to quit. -/
def accountChoices (ext : Collab) : List String :=
  (if ext.hasEnvCreds then ["1"] else []) ++
    (List.range ext.profiles.length).map (fun i => toString (i + 2)) ++ ["q"]

/-- Interpretation of a non-quit credential-source answer: 1 selects the
environment credentials (profile None), a numbered answer selects the
corresponding named profile; none models the IndexError or ValueError
Python would raise on an answer outside the offered set. -/
def resolveProfile (ext : Collab) (ans : String) : Option (Option String) :=
  if ans = "1" then some none
  else
    match strToNat? ans with
    | none => none
    | some k => (ext.profiles.get? (k - 2)).map some

/-- _prompt_account_id: offer the credential sources, quit on q, store
the selected profile, then resolve the account id; on a
CredentialsError report the reason and re-run the whole question.  The
fuel parameter bounds the self-recursion; each round consumes at least
one script line. -/
def prompt_account_id (ext : Collab) : Nat → GuidedContext → List String → Res
  | 0, _, _ => .stuck []
  | fuel + 1, s, inputs =>
    match promptChoice (accountChoices ext) none inputs with
    | none => .stuck [Q.accountId]
    | some (ans, rest) =>
      if ans = "q" then .exited 0 [Q.accountId]
      else
        match resolveProfile ext ans with
        | none => .crashed [Q.accountId]
        | some prof =>
          match ext.getAccountId prof with
          | .ok _ => .ok { s with profile := prof } rest [Q.accountId]
          | .error msg =>
            (prompt_account_id ext fuel { s with profile := prof } rest).prependTrace
              [Q.accountId, Q.echoCredentialsError msg]

/-- _prompt_stage_configuration_name: prompt with the current value as
default and store the answer. -/
def prompt_stage_configuration_name (s : GuidedContext) (inputs : List String) : Res :=
  match promptStr s.stage_configuration_name inputs with
  | none => .stuck [Q.stageName]
  | some (v, rest) => .ok { s with stage_configuration_name := some v } rest [Q.stageName]

/-- _prompt_region_name: prompt with the collaborator default region as
default and store the answer. -/
def prompt_region_name (ext : Collab) (s : GuidedContext) (inputs : List String) : Res :=
  match promptStr (some ext.defaultRegion) inputs with
  | none => .stuck [Q.region]
  | some (v, rest) => .ok { s with region := some v } rest [Q.region]

/-- _prompt_pipeline_user: prompt with empty default and store the
answer. -/
def prompt_pipeline_user (s : GuidedContext) (inputs : List String) : Res :=
  match promptStr (some "") inputs with
  | none => .stuck [Q.pipelineUser]
  | some (v, rest) => .ok { s with pipeline_user_arn := some v } rest [Q.pipelineUser]

/-- _prompt_pipeline_execution_role: prompt with empty default and store
the answer. -/
def prompt_pipeline_execution_role (s : GuidedContext) (inputs : List String) : Res :=
  match promptStr (some "") inputs with
  | none => .stuck [Q.pipelineExecRole]
  | some (v, rest) => .ok { s with pipeline_execution_role_arn := some v } rest [Q.pipelineExecRole]

/-- _prompt_cloudformation_execution_role: prompt with empty default and
store the answer. -/
def prompt_cloudformation_execution_role (s : GuidedContext) (inputs : List String) : Res :=
  match promptStr (some "") inputs with
  | none => .stuck [Q.cfnRole]
  | some (v, rest) => .ok { s with cloudformation_execution_role_arn := some v } rest [Q.cfnRole]

/-- _prompt_artifacts_bucket: prompt with empty default and store the
answer. -/
def prompt_artifacts_bucket (s : GuidedContext) (inputs : List String) : Res :=
  match promptStr (some "") inputs with
  | none => .stuck [Q.artifactsBucket]
  | some (v, rest) => .ok { s with artifacts_bucket_arn := some v } rest [Q.artifactsBucket]

/-- _prompt_image_repository: confirm whether the application has IMAGE
type functions; on yes prompt for the repository ARN and derive
create_image_repository from its truthiness, on no set
create_image_repository to False. -/
def prompt_image_repository (s : GuidedContext) (inputs : List String) : Res :=
  match promptConfirm inputs with
  | none => .stuck [Q.imageRepository]
  | some (true, rest) =>
    match promptStr (some "") rest with
    | none => .stuck [Q.imageRepository]
    | some (v, rest') =>
      .ok { s with image_repository_arn := some v,
                   create_image_repository := !(truthy (some v)) } rest' [Q.imageRepository]
  | some (false, rest) =>
    .ok { s with create_image_repository := false } rest [Q.imageRepository]

/-- _prompt_permissions_provider: choice between 1 (IAM, the default)
and 2 (OIDC). -/
def prompt_permissions_provider (s : GuidedContext) (inputs : List String) : Res :=
  match promptChoice ["1", "2"] (some "1") inputs with
  | none => .stuck [Q.permissionsProvider]
  | some (ans, rest) =>
    .ok { s with permissions_provider := some (if ans = "2" then OPEN_ID_CONNECT else IAM) }
      rest [Q.permissionsProvider]

/-- _prompt_oidc_provider: choice among the three supported providers;
the final case models the KeyError Python would raise on a key outside
SUPPORTED_OIDC_PROVIDERS. -/
def prompt_oidc_provider (s : GuidedContext) (inputs : List String) : Res :=
  match promptChoice ["1", "2", "3"] none inputs with
  | none => .stuck [Q.oidcProvider]
  | some (ans, rest) =>
    if ans = "1" then
      .ok { s with oidc_config := { s.oidc_config with oidc_provider := some GITHUB_ACTIONS } }
        rest [Q.oidcProvider]
    else if ans = "2" then
      .ok { s with oidc_config := { s.oidc_config with oidc_provider := some GITLAB } }
        rest [Q.oidcProvider]
    else if ans = "3" then
      .ok { s with oidc_config := { s.oidc_config with oidc_provider := some BITBUCKET } }
        rest [Q.oidcProvider]
    else .crashed [Q.oidcProvider]

/-- _prompt_oidc_provider_url: prompt for the provider URL, defaulting
to DEFAULT_OIDC_URLS of the chosen provider when one is chosen; a
crashed result models the KeyError on an unsupported stored provider. -/
def prompt_oidc_provider_url (s : GuidedContext) (inputs : List String) : Res :=
  match (if truthy s.oidc_config.oidc_provider then
           DEFAULT_OIDC_URLS (s.oidc_config.oidc_provider.getD "")
         else some none) with
  | none => .crashed [Q.oidcUrl]
  | some dflt =>
    match promptStr dflt inputs with
    | none => .stuck [Q.oidcUrl]
    | some (v, rest) =>
      .ok { s with oidc_config := { s.oidc_config with oidc_provider_url := some v } }
        rest [Q.oidcUrl]

/-- _prompt_oidc_client_id: prompt for the client id, defaulting to
DEFAULT_CLIENT_IDS of the chosen provider when one is chosen. -/
def prompt_oidc_client_id (s : GuidedContext) (inputs : List String) : Res :=
  match (if truthy s.oidc_config.oidc_provider then
           DEFAULT_CLIENT_IDS (s.oidc_config.oidc_provider.getD "")
         else some none) with
  | none => .crashed [Q.oidcClientId]
  | some dflt =>
    match promptStr dflt inputs with
    | none => .stuck [Q.oidcClientId]
    | some (v, rest) =>
      .ok { s with oidc_config := { s.oidc_config with oidc_client_id := some v } }
        rest [Q.oidcClientId]

/-- _prompt_bitbucket_repo_uuid: prompt with no default and store the
answer. -/
def prompt_bitbucket_repo_uuid (s : GuidedContext) (inputs : List String) : Res :=
  match promptStr none inputs with
  | none => .stuck [Q.bitbucketUuid]
  | some (v, rest) =>
    .ok { s with bitbucket_config := { s.bitbucket_config with bitbucket_repo_uuid := some v } }
      rest [Q.bitbucketUuid]

/-- _prompt_gitlab_group: prompt with no default and store the answer. -/
def prompt_gitlab_group (s : GuidedContext) (inputs : List String) : Res :=
  match promptStr none inputs with
  | none => .stuck [Q.gitlabGroup]
  | some (v, rest) =>
    .ok { s with gitlab_config := { s.gitlab_config with gitlab_group := some v } }
      rest [Q.gitlabGroup]

/-- _prompt_gitlab_project: prompt with no default and store the
answer. -/
def prompt_gitlab_project (s : GuidedContext) (inputs : List String) : Res :=
  match promptStr none inputs with
  | none => .stuck [Q.gitlabProject]
  | some (v, rest) =>
    .ok { s with gitlab_config := { s.gitlab_config with gitlab_project := some v } }
      rest [Q.gitlabProject]

/-- _prompt_github_org: prompt with no default and store the answer. -/
def prompt_github_org (s : GuidedContext) (inputs : List String) : Res :=
  match promptStr none inputs with
  | none => .stuck [Q.githubOrg]
  | some (v, rest) =>
    .ok { s with github_config := { s.github_config with github_org := some v } }
      rest [Q.githubOrg]

/-- _prompt_github_repo: prompt with no default and store the answer. -/
def prompt_github_repo (s : GuidedContext) (inputs : List String) : Res :=
  match promptStr none inputs with
  | none => .stuck [Q.githubRepo]
  | some (v, rest) =>
    .ok { s with github_config := { s.github_config with github_repo := some v } }
      rest [Q.githubRepo]

/-- _prompt_deployment_branch: prompt with default main, then store the
answer into both the GitHub and the GitLab configuration. -/
def prompt_deployment_branch (s : GuidedContext) (inputs : List String) : Res :=
  match promptStr (some "main") inputs with
  | none => .stuck [Q.deploymentBranch]
  | some (v, rest) =>
    .ok { s with github_config := { s.github_config with deployment_branch := some v },
                 gitlab_config := { s.gitlab_config with deployment_branch := some v } }
      rest [Q.deploymentBranch]

/-- _prompt_subject_claim: branch on the chosen OIDC provider and ask
only the sub-questions of that provider whose fields are still empty;
an unrecognised or missing provider asks nothing. -/
def prompt_subject_claim (s : GuidedContext) (inputs : List String) : Res :=
  if s.oidc_config.oidc_provider = some GITHUB_ACTIONS then
    (if truthy s.github_config.github_org then .ok s inputs []
     else prompt_github_org s inputs).bind fun s1 i1 =>
      (if truthy s1.github_config.github_repo then .ok s1 i1 []
       else prompt_github_repo s1 i1).bind fun s2 i2 =>
        if truthy s2.github_config.deployment_branch then .ok s2 i2 []
        else prompt_deployment_branch s2 i2
  else if s.oidc_config.oidc_provider = some GITLAB then
    (if truthy s.gitlab_config.gitlab_group then .ok s inputs []
     else prompt_gitlab_group s inputs).bind fun s1 i1 =>
      (if truthy s1.gitlab_config.gitlab_project then .ok s1 i1 []
       else prompt_gitlab_project s1 i1).bind fun s2 i2 =>
        if truthy s2.gitlab_config.deployment_branch then .ok s2 i2 []
        else prompt_deployment_branch s2 i2
  else if s.oidc_config.oidc_provider = some BITBUCKET then
    if truthy s.bitbucket_config.bitbucket_repo_uuid then .ok s inputs []
    else prompt_bitbucket_repo_uuid s inputs
  else .ok s inputs []

/-- First loop of _validate_oidc_provider_url: while the stored URL is
falsy, echo the emptiness guidance and re-prompt. -/
def validate_loop1 : Nat → GuidedContext → List String → Res
  | 0, _, _ => .stuck []
  | fuel + 1, s, inputs =>
    if truthy s.oidc_config.oidc_provider_url then .ok s inputs []
    else
      ((prompt_oidc_provider_url s inputs).prependTrace [Q.echoEmptyUrlGuidance]).bind
        fun s' i' => validate_loop1 fuel s' i'

/-- Second loop of _validate_oidc_provider_url: while the stored URL
does not contain the scheme, echo the scheme guidance and re-prompt. -/
def validate_loop2 : Nat → GuidedContext → List String → Res
  | 0, _, _ => .stuck []
  | fuel + 1, s, inputs =>
    if strContainsSub (s.oidc_config.oidc_provider_url.getD "") "https://" then .ok s inputs []
    else
      ((prompt_oidc_provider_url s inputs).prependTrace [Q.echoSchemeGuidance]).bind
        fun s' i' => validate_loop2 fuel s' i'

/-- _validate_oidc_provider_url: drain emptiness first, then drain
missing-scheme answers. -/
def validate_oidc_provider_url (fuel : Nat) (s : GuidedContext) (inputs : List String) : Res :=
  (validate_loop1 fuel s inputs).bind fun s' i' => validate_loop2 fuel s' i'

/-- Tags naming the editor callables that _get_user_inputs pairs with
each label; edDeploymentBranch is shared by the GitHub and GitLab rows
exactly as _prompt_deployment_branch is in the source. -/
inductive Ed where
  | edAccount
  | edStageName
  | edRegion
  | edOidcUrl
  | edOidcClientId
  | edGithubOrg
  | edGithubRepo
  | edDeploymentBranch
  | edGitlabGroup
  | edGitlabProject
  | edBitbucketUuid
  | edPipelineUser
  | edPipelineExecRole
  | edCfnRole
  | edArtifactsBucket
  | edImageRepo
deriving DecidableEq, Repr

/-- _get_user_inputs: rebuild the summary rows from the current state.
The account row resolves the account id, so a CredentialsError at this
point propagates as an error (Python would raise out of the summary
loop). -/
def get_user_inputs (ext : Collab) (s : GuidedContext) :
    Except String (List (String × Ed)) :=
  match ext.getAccountId s.profile with
  | .error e => .error e
  | .ok acct =>
    .ok
      ([("Account: " ++ acct, Ed.edAccount),
        ("Stage configuration name: " ++ optStr s.stage_configuration_name, Ed.edStageName),
        ("Region: " ++ optStr s.region, Ed.edRegion)]
       ++
       (if s.permissions_provider = some OPEN_ID_CONNECT then
          [("OIDC identity provider URL: " ++ optStr s.oidc_config.oidc_provider_url,
            Ed.edOidcUrl),
           ("OIDC client ID: " ++ optStr s.oidc_config.oidc_client_id, Ed.edOidcClientId)]
          ++
          (if s.oidc_config.oidc_provider = some GITHUB_ACTIONS then
             [("GitHub organization: " ++ optStr s.github_config.github_org, Ed.edGithubOrg),
              ("GitHub repository: " ++ optStr s.github_config.github_repo, Ed.edGithubRepo),
              ("Deployment branch:  " ++ optStr s.github_config.deployment_branch,
               Ed.edDeploymentBranch)]
           else if s.oidc_config.oidc_provider = some GITLAB then
             [("GitLab group: " ++ optStr s.gitlab_config.gitlab_group, Ed.edGitlabGroup),
              ("GitLab project: " ++ optStr s.gitlab_config.gitlab_project, Ed.edGitlabProject),
              ("Deployment branch: " ++ optStr s.gitlab_config.deployment_branch,
               Ed.edDeploymentBranch)]
           else if s.oidc_config.oidc_provider = some BITBUCKET then
             [("Bitbucket repository UUID: " ++ optStr s.bitbucket_config.bitbucket_repo_uuid,
               Ed.edBitbucketUuid)]
           else [])
        else
          [(if truthy s.pipeline_user_arn then
              "Pipeline user ARN: " ++ optStr s.pipeline_user_arn
            else "Pipeline user: [to be created]", Ed.edPipelineUser)])
       ++
       [(if truthy s.pipeline_execution_role_arn then
           "Pipeline execution role ARN: " ++ optStr s.pipeline_execution_role_arn
         else "Pipeline execution role: [to be created]", Ed.edPipelineExecRole),
        (if truthy s.cloudformation_execution_role_arn then
           "CloudFormation execution role ARN: " ++ optStr s.cloudformation_execution_role_arn
         else "CloudFormation execution role: [to be created]", Ed.edCfnRole),
        (if truthy s.artifacts_bucket_arn then
           "Artifacts bucket ARN: " ++ optStr s.artifacts_bucket_arn
         else "Artifacts bucket: [to be created]", Ed.edArtifactsBucket),
        (if truthy s.image_repository_arn then
           "ECR image repository ARN: " ++ optStr s.image_repository_arn
         else
           "ECR image repository: [" ++
             (if s.create_image_repository then "to be created" else "skipped") ++ "]",
         Ed.edImageRepo)])

/-- Dispatch an editor tag to the prompt handler it names; the account
editor re-runs the recursive credential question with fuel sufficient
for the remaining script. -/
def runEd (ext : Collab) : Ed → GuidedContext → List String → Res
  | .edAccount, s, i => prompt_account_id ext (i.length + 1) s i
  | .edStageName, s, i => prompt_stage_configuration_name s i
  | .edRegion, s, i => prompt_region_name ext s i
  | .edOidcUrl, s, i => prompt_oidc_provider_url s i
  | .edOidcClientId, s, i => prompt_oidc_client_id s i
  | .edGithubOrg, s, i => prompt_github_org s i
  | .edGithubRepo, s, i => prompt_github_repo s i
  | .edDeploymentBranch, s, i => prompt_deployment_branch s i
  | .edGitlabGroup, s, i => prompt_gitlab_group s i
  | .edGitlabProject, s, i => prompt_gitlab_project s i
  | .edBitbucketUuid, s, i => prompt_bitbucket_repo_uuid s i
  | .edPipelineUser, s, i => prompt_pipeline_user s i
  | .edPipelineExecRole, s, i => prompt_pipeline_execution_role s i
  | .edCfnRole, s, i => prompt_cloudformation_execution_role s i
  | .edArtifactsBucket, s, i => prompt_artifacts_bucket s i
  | .edImageRepo, s, i => prompt_image_repository s i

/-- The choice strings offered by the summary prompt for a row list of
length n: 0 to confirm plus one 1-based index per row. -/
def summaryChoices (n : Nat) : List String :=
  "0" :: (List.range n).map (fun i => toString (i + 1))

/-- The summary loop at the end of run: rebuild the rows from the
current state, prompt for a choice among 0..length (default 0), exit on
0, otherwise run the chosen row's editor and loop.  The crashed results
model the exceptions Python would raise if the account id could no
longer be resolved, if int() failed, or if the index were out of
range. -/
def summaryLoop (ext : Collab) : Nat → GuidedContext → List String → Res
  | 0, _, _ => .stuck []
  | fuel + 1, s, inputs =>
    match get_user_inputs ext s with
    | .error _ => .crashed []
    | .ok lst =>
      match promptChoice (summaryChoices lst.length) (some "0") inputs with
      | none => .stuck []
      | some (choice, rest) =>
        match strToNat? choice with
        | none => .crashed []
        | some k =>
          if k = 0 then .ok s rest []
          else
            match lst.get? (k - 1) with
            | none => .crashed []
            | some entry =>
              (runEd ext entry.2 s rest).bind fun s' rest' => summaryLoop ext fuel s' rest'

/-- Step [1] of run: ask the stage configuration name unless it is
already set (in which case it is only echoed). -/
def stage_step (s : GuidedContext) (inputs : List String) : Res :=
  if truthy s.stage_configuration_name then .ok s inputs []
  else prompt_stage_configuration_name s inputs

/-- The region question of run: ask unless the region is already set. -/
def region_step (ext : Collab) (s : GuidedContext) (inputs : List String) : Res :=
  if truthy s.region then .ok s inputs []
  else prompt_region_name ext s inputs

/-- The permissions-provider question of run: asked when the OIDC
option is enabled, the provider is not already OIDC, and no pipeline
user ARN is set. -/
def perms_step (s : GuidedContext) (inputs : List String) : Res :=
  if s.enable_oidc_option
      && !(s.permissions_provider == some OPEN_ID_CONNECT)
      && !(truthy s.pipeline_user_arn) then
    prompt_permissions_provider s inputs
  else .ok s inputs []

/-- The OIDC-or-pipeline-user block of run: with OIDC chosen, ask the
provider, URL, client id (each skipped when already set), run the URL
validation gate, and ask the subject claim; otherwise echo or ask the
pipeline user. -/
def oidc_or_user_step (s : GuidedContext) (inputs : List String) : Res :=
  if s.permissions_provider = some OPEN_ID_CONNECT then
    (if truthy s.oidc_config.oidc_provider then .ok s inputs []
     else prompt_oidc_provider s inputs).bind fun s1 i1 =>
      (if truthy s1.oidc_config.oidc_provider_url then .ok s1 i1 []
       else prompt_oidc_provider_url s1 i1).bind fun s2 i2 =>
        (validate_oidc_provider_url (i2.length + 1) s2 i2).bind fun s3 i3 =>
          (if truthy s3.oidc_config.oidc_client_id then .ok s3 i3 []
           else prompt_oidc_client_id s3 i3).bind fun s4 i4 =>
            prompt_subject_claim s4 i4
  else if truthy s.pipeline_user_arn then .ok s inputs []
  else prompt_pipeline_user s inputs

/-- The pipeline-execution-role question of run: ask unless set. -/
def exec_role_step (s : GuidedContext) (inputs : List String) : Res :=
  if truthy s.pipeline_execution_role_arn then .ok s inputs []
  else prompt_pipeline_execution_role s inputs

/-- The CloudFormation-execution-role question of run: ask unless set. -/
def cfn_role_step (s : GuidedContext) (inputs : List String) : Res :=
  if truthy s.cloudformation_execution_role_arn then .ok s inputs []
  else prompt_cloudformation_execution_role s inputs

/-- The artifacts-bucket question of run: ask unless set. -/
def bucket_step (s : GuidedContext) (inputs : List String) : Res :=
  if truthy s.artifacts_bucket_arn then .ok s inputs []
  else prompt_artifacts_bucket s inputs

/-- The image-repository question of run: ask unless set. -/
def image_step (s : GuidedContext) (inputs : List String) : Res :=
  if truthy s.image_repository_arn then .ok s inputs []
  else prompt_image_repository s inputs

/-- The initial sequential pass of run, before the summary loop: the
questions in declared order, with the account question always asked. -/
def runInitial (ext : Collab) (s : GuidedContext) (inputs : List String) : Res :=
  (stage_step s inputs).bind fun s1 i1 =>
    (prompt_account_id ext (i1.length + 1) s1 i1).bind fun s2 i2 =>
      (region_step ext s2 i2).bind fun s3 i3 =>
        (perms_step s3 i3).bind fun s4 i4 =>
          (oidc_or_user_step s4 i4).bind fun s5 i5 =>
            (exec_role_step s5 i5).bind fun s6 i6 =>
              (cfn_role_step s6 i6).bind fun s7 i7 =>
                (bucket_step s7 i7).bind fun s8 i8 =>
                  image_step s8 i8

/-- run: the initial sequential pass followed by the summary
review-and-edit loop. -/
def run (ext : Collab) (s : GuidedContext) (inputs : List String) : Res :=
  (runInitial ext s inputs).bind fun s9 i9 => summaryLoop ext (i9.length + 1) s9 i9

/-- A sample collaborator environment used to instantiate theorems on
concrete runs: one named profile and an account resolver that always
succeeds. -/
def extW : Collab :=
  { profiles := ["dev"]
    hasEnvCreds := false
    getAccountId := fun _ => .ok "123456789012"
    defaultRegion := "us-east-1" }

/-- A sample collaborator environment whose account resolver always
fails with a credentials error. -/
def extFailW : Collab :=
  { profiles := ["dev"]
    hasEnvCreds := false
    getAccountId := fun _ => .error "could not resolve credentials"
    defaultRegion := "us-east-1" }

/-- The answer state with every field unset, OIDC option enabled. -/
def emptyCtx : GuidedContext :=
  { profile := none
    stage_configuration_name := none
    pipeline_user_arn := none
    pipeline_execution_role_arn := none
    cloudformation_execution_role_arn := none
    artifacts_bucket_arn := none
    create_image_repository := false
    image_repository_arn := none
    region := none
    permissions_provider := none
    oidc_config := { oidc_provider := none, oidc_provider_url := none, oidc_client_id := none }
    github_config := { github_org := none, github_repo := none, deployment_branch := none }
    gitlab_config := { gitlab_group := none, gitlab_project := none, deployment_branch := none }
    bitbucket_config := { bitbucket_repo_uuid := none }
    enable_oidc_option := true }

/-- The per-question skip condition of the initial pass, evaluated on
the state the pass started from: a question identifier may appear in
the trace of the initial pass only when its condition holds.  The
account question is always asked; the permissions-provider question is
asked whenever the OIDC option is enabled, the provider is not already
OIDC and no pipeline user is set; the URL question may also be re-asked
by the validation gate when the stored URL lacks the scheme; the shared
deployment-branch question is asked when either stored branch is empty;
every other question requires its own field to be empty. -/
def questionSkipConditions (s : GuidedContext) : Q → Prop
  | .stageName => truthy s.stage_configuration_name = false
  | .accountId => True
  | .region => truthy s.region = false
  | .permissionsProvider => s.enable_oidc_option = true ∧
      (s.permissions_provider == some OPEN_ID_CONNECT) = false ∧
      truthy s.pipeline_user_arn = false
  | .oidcProvider => truthy s.oidc_config.oidc_provider = false
  | .oidcUrl => truthy s.oidc_config.oidc_provider_url = false ∨
      strContainsSub (s.oidc_config.oidc_provider_url.getD "") "https://" = false
  | .oidcClientId => truthy s.oidc_config.oidc_client_id = false
  | .githubOrg => truthy s.github_config.github_org = false
  | .githubRepo => truthy s.github_config.github_repo = false
  | .deploymentBranch => truthy s.github_config.deployment_branch = false ∨
      truthy s.gitlab_config.deployment_branch = false
  | .gitlabGroup => truthy s.gitlab_config.gitlab_group = false
  | .gitlabProject => truthy s.gitlab_config.gitlab_project = false
  | .bitbucketUuid => truthy s.bitbucket_config.bitbucket_repo_uuid = false
  | .pipelineUser => truthy s.pipeline_user_arn = false
  | .pipelineExecRole => truthy s.pipeline_execution_role_arn = false
  | .cfnRole => truthy s.cloudformation_execution_role_arn = false
  | .artifactsBucket => truthy s.artifacts_bucket_arn = false
  | .imageRepository => truthy s.image_repository_arn = false
  | .echoEmptyUrlGuidance => True
  | .echoSchemeGuidance => True
  | .echoCredentialsError _ => True

/-- Convenience constructor for OidcConfig values in concrete
statements. -/
def oidcCfg (p u c : Option String) : OidcConfig :=
  { oidc_provider := p, oidc_provider_url := u, oidc_client_id := c }

/-- Convenience constructor for GitHubOidcConfig values in concrete
statements. -/
def ghCfg (o r b : Option String) : GitHubOidcConfig :=
  { github_org := o, github_repo := r, deployment_branch := b }

/-- Convenience constructor for GitLabOidcConfig values in concrete
statements. -/
def glCfg (g p b : Option String) : GitLabOidcConfig :=
  { gitlab_group := g, gitlab_project := p, deployment_branch := b }

deriving instance DecidableEq for Except

theorem Res.trace_prependTrace (t : List Q) (r : Res) :
    (r.prependTrace t).trace = t ++ r.trace := by
  cases r <;> rfl

theorem Res.prependTrace_eq_ok {t : List Q} {r : Res} {s' : GuidedContext}
    {i' : List String} {t' : List Q} (h : r.prependTrace t = .ok s' i' t') :
    ∃ t₀, r = .ok s' i' t₀ ∧ t' = t ++ t₀ := by
  cases r <;> simp_all [Res.prependTrace]

theorem Res.prependTrace_eq_exited {t : List Q} {r : Res} {c : Nat} {t' : List Q}
    (h : r.prependTrace t = .exited c t') :
    ∃ t₀, r = .exited c t₀ ∧ t' = t ++ t₀ := by
  cases r <;> simp_all [Res.prependTrace]

theorem Res.bind_eq_ok {r : Res} {f : GuidedContext → List String → Res}
    {s' : GuidedContext} {i' : List String} {t' : List Q} (h : r.bind f = .ok s' i' t') :
    ∃ s i t₁ t₂, r = .ok s i t₁ ∧ f s i = .ok s' i' t₂ ∧ t' = t₁ ++ t₂ := by
  cases r with
  | ok s i t =>
    obtain ⟨t₀, hf, ht⟩ := Res.prependTrace_eq_ok h
    exact ⟨s, i, t, t₀, rfl, hf, ht⟩
  | exited c t => simp [Res.bind] at h
  | stuck t => simp [Res.bind] at h
  | crashed t => simp [Res.bind] at h

theorem Res.bind_eq_exited {r : Res} {f : GuidedContext → List String → Res}
    {c : Nat} {t' : List Q} (h : r.bind f = .exited c t') :
    (∃ t, r = .exited c t) ∨ ∃ s i t₁ t₂, r = .ok s i t₁ ∧ f s i = .exited c t₂ := by
  cases r with
  | ok s i t =>
    obtain ⟨t₀, hf, _⟩ := Res.prependTrace_eq_exited h
    exact Or.inr ⟨s, i, t, t₀, rfl, hf⟩
  | exited c' t => simp_all [Res.bind]
  | stuck t => simp [Res.bind] at h
  | crashed t => simp [Res.bind] at h

theorem Res.mem_trace_bind {q : Q} {r : Res} {f : GuidedContext → List String → Res}
    (h : q ∈ (r.bind f).trace) :
    q ∈ r.trace ∨ ∃ s i t, r = .ok s i t ∧ q ∈ (f s i).trace := by
  cases r with
  | ok s i t =>
    rw [Res.bind, Res.trace_prependTrace, List.mem_append] at h
    rcases h with h | h
    · exact Or.inl h
    · exact Or.inr ⟨s, i, t, rfl, h⟩
  | exited c t => exact Or.inl h
  | stuck t => exact Or.inl h
  | crashed t => exact Or.inl h

theorem promptStr_mem {d : Option String} {i : List String} {a : String}
    {r : List String} (h : promptStr d i = some (a, r)) :
    a ∈ i ∨ d = some a := by
  induction i with
  | nil => simp [promptStr] at h
  | cons x rest ih =>
    rw [promptStr.eq_def] at h
    by_cases hx : x = ""
    · simp only [hx, if_pos rfl] at h
      cases d with
      | none =>
        rcases ih h with h' | h'
        · exact Or.inl (List.mem_cons_of_mem _ h')
        · simp at h'
      | some dv => simp at h; exact Or.inr (by rw [h.1])
    · simp only [if_neg hx] at h
      exact Or.inl (by simp at h; simp [h.1])

theorem promptChoice_mem {cs : List String} {d : Option String} {i : List String}
    {a : String} {r : List String} (h : promptChoice cs d i = some (a, r)) :
    a ∈ cs ∨ d = some a := by
  induction i with
  | nil => simp [promptChoice] at h
  | cons x rest ih =>
    rw [promptChoice.eq_def] at h
    by_cases hx : x = ""
    · simp only [hx, if_pos rfl] at h
      cases d with
      | none => exact ih h
      | some dv => simp at h; exact Or.inr (by rw [h.1])
    · simp only [if_neg hx] at h
      by_cases hc : cs.contains x
      · simp only [hc, if_pos rfl] at h
        simp at h
        exact Or.inl (by rw [h.1] at hc; simpa using hc)
      · simp only [hc] at h
        simp at h
        exact ih h

theorem prompt_stage_configuration_name_trace (s : GuidedContext) (i : List String) :
    (prompt_stage_configuration_name s i).trace = [Q.stageName] := by
  unfold prompt_stage_configuration_name; split <;> rfl

theorem prompt_region_name_trace (ext : Collab) (s : GuidedContext) (i : List String) :
    (prompt_region_name ext s i).trace = [Q.region] := by
  unfold prompt_region_name; split <;> rfl

theorem prompt_pipeline_user_trace (s : GuidedContext) (i : List String) :
    (prompt_pipeline_user s i).trace = [Q.pipelineUser] := by
  unfold prompt_pipeline_user; split <;> rfl

theorem prompt_pipeline_execution_role_trace (s : GuidedContext) (i : List String) :
    (prompt_pipeline_execution_role s i).trace = [Q.pipelineExecRole] := by
  unfold prompt_pipeline_execution_role; split <;> rfl

theorem prompt_cloudformation_execution_role_trace (s : GuidedContext) (i : List String) :
    (prompt_cloudformation_execution_role s i).trace = [Q.cfnRole] := by
  unfold prompt_cloudformation_execution_role; split <;> rfl

theorem prompt_artifacts_bucket_trace (s : GuidedContext) (i : List String) :
    (prompt_artifacts_bucket s i).trace = [Q.artifactsBucket] := by
  unfold prompt_artifacts_bucket; split <;> rfl

theorem prompt_image_repository_trace (s : GuidedContext) (i : List String) :
    (prompt_image_repository s i).trace = [Q.imageRepository] := by
  unfold prompt_image_repository
  split
  · rfl
  · split <;> rfl
  · rfl

theorem prompt_permissions_provider_trace (s : GuidedContext) (i : List String) :
    (prompt_permissions_provider s i).trace = [Q.permissionsProvider] := by
  unfold prompt_permissions_provider; split <;> rfl

theorem prompt_oidc_provider_trace (s : GuidedContext) (i : List String) :
    (prompt_oidc_provider s i).trace = [Q.oidcProvider] := by
  unfold prompt_oidc_provider
  split
  · rfl
  · split
    · rfl
    · split
      · rfl
      · split <;> rfl

theorem prompt_oidc_provider_url_trace (s : GuidedContext) (i : List String) :
    (prompt_oidc_provider_url s i).trace = [Q.oidcUrl] := by
  unfold prompt_oidc_provider_url
  split
  · rfl
  · split <;> rfl

theorem prompt_oidc_client_id_trace (s : GuidedContext) (i : List String) :
    (prompt_oidc_client_id s i).trace = [Q.oidcClientId] := by
  unfold prompt_oidc_client_id
  split
  · rfl
  · split <;> rfl

theorem prompt_bitbucket_repo_uuid_trace (s : GuidedContext) (i : List String) :
    (prompt_bitbucket_repo_uuid s i).trace = [Q.bitbucketUuid] := by
  unfold prompt_bitbucket_repo_uuid; split <;> rfl

theorem prompt_gitlab_group_trace (s : GuidedContext) (i : List String) :
    (prompt_gitlab_group s i).trace = [Q.gitlabGroup] := by
  unfold prompt_gitlab_group; split <;> rfl

theorem prompt_gitlab_project_trace (s : GuidedContext) (i : List String) :
    (prompt_gitlab_project s i).trace = [Q.gitlabProject] := by
  unfold prompt_gitlab_project; split <;> rfl

theorem prompt_github_org_trace (s : GuidedContext) (i : List String) :
    (prompt_github_org s i).trace = [Q.githubOrg] := by
  unfold prompt_github_org; split <;> rfl

theorem prompt_github_repo_trace (s : GuidedContext) (i : List String) :
    (prompt_github_repo s i).trace = [Q.githubRepo] := by
  unfold prompt_github_repo; split <;> rfl

theorem prompt_deployment_branch_trace (s : GuidedContext) (i : List String) :
    (prompt_deployment_branch s i).trace = [Q.deploymentBranch] := by
  unfold prompt_deployment_branch; split <;> rfl

theorem prompt_stage_configuration_name_ok {s s' : GuidedContext} {i r : List String}
    {t : List Q} (h : prompt_stage_configuration_name s i = .ok s' r t) :
    ∃ v, s' = { s with stage_configuration_name := some v } := by
  unfold prompt_stage_configuration_name at h
  split at h
  · exact absurd h (by simp)
  · rename_i v rest heq
    simp only [Res.ok.injEq] at h
    exact ⟨v, h.1.symm⟩

theorem prompt_region_name_ok {ext : Collab} {s s' : GuidedContext} {i r : List String}
    {t : List Q} (h : prompt_region_name ext s i = .ok s' r t) :
    ∃ v, s' = { s with region := some v } := by
  unfold prompt_region_name at h
  split at h
  · exact absurd h (by simp)
  · rename_i v rest heq
    simp only [Res.ok.injEq] at h
    exact ⟨v, h.1.symm⟩

theorem prompt_pipeline_user_ok {s s' : GuidedContext} {i r : List String}
    {t : List Q} (h : prompt_pipeline_user s i = .ok s' r t) :
    ∃ v, s' = { s with pipeline_user_arn := some v } := by
  unfold prompt_pipeline_user at h
  split at h
  · exact absurd h (by simp)
  · rename_i v rest heq
    simp only [Res.ok.injEq] at h
    exact ⟨v, h.1.symm⟩

theorem prompt_pipeline_execution_role_ok {s s' : GuidedContext} {i r : List String}
    {t : List Q} (h : prompt_pipeline_execution_role s i = .ok s' r t) :
    ∃ v, s' = { s with pipeline_execution_role_arn := some v } := by
  unfold prompt_pipeline_execution_role at h
  split at h
  · exact absurd h (by simp)
  · rename_i v rest heq
    simp only [Res.ok.injEq] at h
    exact ⟨v, h.1.symm⟩

theorem prompt_cloudformation_execution_role_ok {s s' : GuidedContext} {i r : List String}
    {t : List Q} (h : prompt_cloudformation_execution_role s i = .ok s' r t) :
    ∃ v, s' = { s with cloudformation_execution_role_arn := some v } := by
  unfold prompt_cloudformation_execution_role at h
  split at h
  · exact absurd h (by simp)
  · rename_i v rest heq
    simp only [Res.ok.injEq] at h
    exact ⟨v, h.1.symm⟩

theorem prompt_artifacts_bucket_ok {s s' : GuidedContext} {i r : List String}
    {t : List Q} (h : prompt_artifacts_bucket s i = .ok s' r t) :
    ∃ v, s' = { s with artifacts_bucket_arn := some v } := by
  unfold prompt_artifacts_bucket at h
  split at h
  · exact absurd h (by simp)
  · rename_i v rest heq
    simp only [Res.ok.injEq] at h
    exact ⟨v, h.1.symm⟩

theorem prompt_image_repository_ok {s s' : GuidedContext} {i r : List String}
    {t : List Q} (h : prompt_image_repository s i = .ok s' r t) :
    ∃ b a, s' = { s with create_image_repository := b, image_repository_arn := a } := by
  unfold prompt_image_repository at h
  split at h
  · exact absurd h (by simp)
  · split at h
    · exact absurd h (by simp)
    · rename_i v rest heq
      simp only [Res.ok.injEq] at h
      exact ⟨!(truthy (some v)), some v, h.1.symm⟩
  · simp only [Res.ok.injEq] at h
    exact ⟨false, s.image_repository_arn, h.1.symm⟩

theorem prompt_permissions_provider_ok {s s' : GuidedContext} {i r : List String}
    {t : List Q} (h : prompt_permissions_provider s i = .ok s' r t) :
    ∃ v, s' = { s with permissions_provider := some v } := by
  unfold prompt_permissions_provider at h
  split at h
  · exact absurd h (by simp)
  · rename_i ans rest heq
    simp only [Res.ok.injEq] at h
    exact ⟨if ans = "2" then OPEN_ID_CONNECT else IAM, h.1.symm⟩

theorem prompt_oidc_provider_ok {s s' : GuidedContext} {i r : List String}
    {t : List Q} (h : prompt_oidc_provider s i = .ok s' r t) :
    ∃ p, s' = { s with oidc_config := { s.oidc_config with oidc_provider := some p } } := by
  unfold prompt_oidc_provider at h
  split at h
  · exact absurd h (by simp)
  · split at h
    · simp only [Res.ok.injEq] at h
      exact ⟨GITHUB_ACTIONS, h.1.symm⟩
    · split at h
      · simp only [Res.ok.injEq] at h
        exact ⟨GITLAB, h.1.symm⟩
      · split at h
        · simp only [Res.ok.injEq] at h
          exact ⟨BITBUCKET, h.1.symm⟩
        · exact absurd h (by simp)

theorem prompt_oidc_provider_url_ok {s s' : GuidedContext} {i r : List String}
    {t : List Q} (h : prompt_oidc_provider_url s i = .ok s' r t) :
    ∃ u, s' = { s with oidc_config := { s.oidc_config with oidc_provider_url := some u } } := by
  unfold prompt_oidc_provider_url at h
  split at h
  · exact absurd h (by simp)
  · split at h
    · exact absurd h (by simp)
    · rename_i v rest heq
      simp only [Res.ok.injEq] at h
      exact ⟨v, h.1.symm⟩

theorem prompt_oidc_client_id_ok {s s' : GuidedContext} {i r : List String}
    {t : List Q} (h : prompt_oidc_client_id s i = .ok s' r t) :
    ∃ u, s' = { s with oidc_config := { s.oidc_config with oidc_client_id := some u } } := by
  unfold prompt_oidc_client_id at h
  split at h
  · exact absurd h (by simp)
  · split at h
    · exact absurd h (by simp)
    · rename_i v rest heq
      simp only [Res.ok.injEq] at h
      exact ⟨v, h.1.symm⟩

theorem prompt_bitbucket_repo_uuid_ok {s s' : GuidedContext} {i r : List String}
    {t : List Q} (h : prompt_bitbucket_repo_uuid s i = .ok s' r t) :
    ∃ u, s' = { s with bitbucket_config :=
      { s.bitbucket_config with bitbucket_repo_uuid := some u } } := by
  unfold prompt_bitbucket_repo_uuid at h
  split at h
  · exact absurd h (by simp)
  · rename_i v rest heq
    simp only [Res.ok.injEq] at h
    exact ⟨v, h.1.symm⟩

theorem prompt_gitlab_group_ok {s s' : GuidedContext} {i r : List String}
    {t : List Q} (h : prompt_gitlab_group s i = .ok s' r t) :
    ∃ u, s' = { s with gitlab_config := { s.gitlab_config with gitlab_group := some u } } := by
  unfold prompt_gitlab_group at h
  split at h
  · exact absurd h (by simp)
  · rename_i v rest heq
    simp only [Res.ok.injEq] at h
    exact ⟨v, h.1.symm⟩

theorem prompt_gitlab_project_ok {s s' : GuidedContext} {i r : List String}
    {t : List Q} (h : prompt_gitlab_project s i = .ok s' r t) :
    ∃ u, s' = { s with gitlab_config := { s.gitlab_config with gitlab_project := some u } } := by
  unfold prompt_gitlab_project at h
  split at h
  · exact absurd h (by simp)
  · rename_i v rest heq
    simp only [Res.ok.injEq] at h
    exact ⟨v, h.1.symm⟩

theorem prompt_github_org_ok {s s' : GuidedContext} {i r : List String}
    {t : List Q} (h : prompt_github_org s i = .ok s' r t) :
    ∃ u, s' = { s with github_config := { s.github_config with github_org := some u } } := by
  unfold prompt_github_org at h
  split at h
  · exact absurd h (by simp)
  · rename_i v rest heq
    simp only [Res.ok.injEq] at h
    exact ⟨v, h.1.symm⟩

theorem prompt_github_repo_ok {s s' : GuidedContext} {i r : List String}
    {t : List Q} (h : prompt_github_repo s i = .ok s' r t) :
    ∃ u, s' = { s with github_config := { s.github_config with github_repo := some u } } := by
  unfold prompt_github_repo at h
  split at h
  · exact absurd h (by simp)
  · rename_i v rest heq
    simp only [Res.ok.injEq] at h
    exact ⟨v, h.1.symm⟩

theorem prompt_deployment_branch_ok {s s' : GuidedContext} {i r : List String}
    {t : List Q} (h : prompt_deployment_branch s i = .ok s' r t) :
    ∃ u, s' = { s with
      github_config := { s.github_config with deployment_branch := some u },
      gitlab_config := { s.gitlab_config with deployment_branch := some u } } := by
  unfold prompt_deployment_branch at h
  split at h
  · exact absurd h (by simp)
  · rename_i v rest heq
    simp only [Res.ok.injEq] at h
    exact ⟨v, h.1.symm⟩

theorem prompt_account_id_ok {ext : Collab} : ∀ {f : Nat} {s s' : GuidedContext}
    {i r : List String} {t : List Q}, prompt_account_id ext f s i = .ok s' r t →
    ∃ p, s' = { s with profile := p } := by
  intro f
  induction f with
  | zero => intro s s' i r t h; simp [prompt_account_id] at h
  | succ f ih =>
    intro s s' i r t h
    rw [prompt_account_id] at h
    split at h
    · exact absurd h (by simp)
    · split at h
      · exact absurd h (by simp)
      · split at h
        · exact absurd h (by simp)
        · rename_i prof hres
          split at h
          · simp only [Res.ok.injEq] at h
            exact ⟨prof, h.1.symm⟩
          · obtain ⟨t₀, hrec, _⟩ := Res.prependTrace_eq_ok h
            obtain ⟨p, hp⟩ := ih hrec
            exact ⟨p, hp⟩

theorem stage_step_trace_mem {q : Q} {s : GuidedContext} {i : List String}
    (h : q ∈ (stage_step s i).trace) :
    q = Q.stageName ∧ truthy s.stage_configuration_name = false := by
  unfold stage_step at h
  split at h
  · simp [Res.trace] at h
  · rename_i hcond
    rw [prompt_stage_configuration_name_trace] at h
    simp at h
    exact ⟨h, by simpa using hcond⟩

theorem stage_step_ok {s s' : GuidedContext} {i r : List String} {t : List Q}
    (h : stage_step s i = .ok s' r t) :
    ∃ v, s' = { s with stage_configuration_name := v } := by
  unfold stage_step at h
  split at h
  · simp only [Res.ok.injEq] at h
    exact ⟨s.stage_configuration_name, h.1.symm⟩
  · obtain ⟨v, hv⟩ := prompt_stage_configuration_name_ok h
    exact ⟨some v, hv⟩

theorem region_step_trace_mem {q : Q} {ext : Collab} {s : GuidedContext} {i : List String}
    (h : q ∈ (region_step ext s i).trace) :
    q = Q.region ∧ truthy s.region = false := by
  unfold region_step at h
  split at h
  · simp [Res.trace] at h
  · rename_i hcond
    rw [prompt_region_name_trace] at h
    simp at h
    exact ⟨h, by simpa using hcond⟩

theorem region_step_ok {ext : Collab} {s s' : GuidedContext} {i r : List String} {t : List Q}
    (h : region_step ext s i = .ok s' r t) :
    ∃ v, s' = { s with region := v } := by
  unfold region_step at h
  split at h
  · simp only [Res.ok.injEq] at h
    exact ⟨s.region, h.1.symm⟩
  · obtain ⟨v, hv⟩ := prompt_region_name_ok h
    exact ⟨some v, hv⟩

theorem perms_step_trace_mem {q : Q} {s : GuidedContext} {i : List String}
    (h : q ∈ (perms_step s i).trace) :
    q = Q.permissionsProvider ∧ s.enable_oidc_option = true ∧
      (s.permissions_provider == some OPEN_ID_CONNECT) = false ∧
      truthy s.pipeline_user_arn = false := by
  unfold perms_step at h
  split at h
  · rename_i hcond
    rw [prompt_permissions_provider_trace] at h
    simp at h
    simp only [Bool.and_eq_true, Bool.not_eq_true'] at hcond
    exact ⟨h, hcond.1.1, hcond.1.2, hcond.2⟩
  · simp [Res.trace] at h

theorem perms_step_ok {s s' : GuidedContext} {i r : List String} {t : List Q}
    (h : perms_step s i = .ok s' r t) :
    ∃ v, s' = { s with permissions_provider := v } := by
  unfold perms_step at h
  split at h
  · obtain ⟨v, hv⟩ := prompt_permissions_provider_ok h
    exact ⟨some v, hv⟩
  · simp only [Res.ok.injEq] at h
    exact ⟨s.permissions_provider, h.1.symm⟩

theorem exec_role_step_trace_mem {q : Q} {s : GuidedContext} {i : List String}
    (h : q ∈ (exec_role_step s i).trace) :
    q = Q.pipelineExecRole ∧ truthy s.pipeline_execution_role_arn = false := by
  unfold exec_role_step at h
  split at h
  · simp [Res.trace] at h
  · rename_i hcond
    rw [prompt_pipeline_execution_role_trace] at h
    simp at h
    exact ⟨h, by simpa using hcond⟩

theorem exec_role_step_ok {s s' : GuidedContext} {i r : List String} {t : List Q}
    (h : exec_role_step s i = .ok s' r t) :
    ∃ v, s' = { s with pipeline_execution_role_arn := v } := by
  unfold exec_role_step at h
  split at h
  · simp only [Res.ok.injEq] at h
    exact ⟨s.pipeline_execution_role_arn, h.1.symm⟩
  · obtain ⟨v, hv⟩ := prompt_pipeline_execution_role_ok h
    exact ⟨some v, hv⟩

theorem cfn_role_step_trace_mem {q : Q} {s : GuidedContext} {i : List String}
    (h : q ∈ (cfn_role_step s i).trace) :
    q = Q.cfnRole ∧ truthy s.cloudformation_execution_role_arn = false := by
  unfold cfn_role_step at h
  split at h
  · simp [Res.trace] at h
  · rename_i hcond
    rw [prompt_cloudformation_execution_role_trace] at h
    simp at h
    exact ⟨h, by simpa using hcond⟩

theorem cfn_role_step_ok {s s' : GuidedContext} {i r : List String} {t : List Q}
    (h : cfn_role_step s i = .ok s' r t) :
    ∃ v, s' = { s with cloudformation_execution_role_arn := v } := by
  unfold cfn_role_step at h
  split at h
  · simp only [Res.ok.injEq] at h
    exact ⟨s.cloudformation_execution_role_arn, h.1.symm⟩
  · obtain ⟨v, hv⟩ := prompt_cloudformation_execution_role_ok h
    exact ⟨some v, hv⟩

theorem bucket_step_trace_mem {q : Q} {s : GuidedContext} {i : List String}
    (h : q ∈ (bucket_step s i).trace) :
    q = Q.artifactsBucket ∧ truthy s.artifacts_bucket_arn = false := by
  unfold bucket_step at h
  split at h
  · simp [Res.trace] at h
  · rename_i hcond
    rw [prompt_artifacts_bucket_trace] at h
    simp at h
    exact ⟨h, by simpa using hcond⟩

theorem bucket_step_ok {s s' : GuidedContext} {i r : List String} {t : List Q}
    (h : bucket_step s i = .ok s' r t) :
    ∃ v, s' = { s with artifacts_bucket_arn := v } := by
  unfold bucket_step at h
  split at h
  · simp only [Res.ok.injEq] at h
    exact ⟨s.artifacts_bucket_arn, h.1.symm⟩
  · obtain ⟨v, hv⟩ := prompt_artifacts_bucket_ok h
    exact ⟨some v, hv⟩

theorem image_step_trace_mem {q : Q} {s : GuidedContext} {i : List String}
    (h : q ∈ (image_step s i).trace) :
    q = Q.imageRepository ∧ truthy s.image_repository_arn = false := by
  unfold image_step at h
  split at h
  · simp [Res.trace] at h
  · rename_i hcond
    rw [prompt_image_repository_trace] at h
    simp at h
    exact ⟨h, by simpa using hcond⟩

theorem image_step_ok {s s' : GuidedContext} {i r : List String} {t : List Q}
    (h : image_step s i = .ok s' r t) :
    ∃ b a, s' = { s with create_image_repository := b, image_repository_arn := a } := by
  unfold image_step at h
  split at h
  · simp only [Res.ok.injEq] at h
    exact ⟨s.create_image_repository, s.image_repository_arn, h.1.symm⟩
  · exact prompt_image_repository_ok h

theorem prompt_account_id_trace_mem {ext : Collab} : ∀ {f : Nat} {q : Q}
    {s : GuidedContext} {i : List String}, q ∈ (prompt_account_id ext f s i).trace →
    q = Q.accountId ∨ ∃ m, q = Q.echoCredentialsError m := by
  intro f
  induction f with
  | zero => intro q s i h; simp [prompt_account_id, Res.trace] at h
  | succ f ih =>
    intro q s i h
    rw [prompt_account_id] at h
    split at h
    · simp [Res.trace] at h; exact Or.inl h
    · split at h
      · simp [Res.trace] at h; exact Or.inl h
      · split at h
        · simp [Res.trace] at h; exact Or.inl h
        · split at h
          · simp [Res.trace] at h; exact Or.inl h
          · rw [Res.trace_prependTrace] at h
            simp only [List.mem_append, List.mem_cons, List.not_mem_nil, or_false] at h
            rcases h with (h | h) | h
            · exact Or.inl h
            · exact Or.inr ⟨_, h⟩
            · exact ih h

theorem validate_loop1_ok : ∀ {f : Nat} {s s' : GuidedContext} {i r : List String}
    {t : List Q}, validate_loop1 f s i = .ok s' r t →
    ∃ u, s' = { s with oidc_config := { s.oidc_config with oidc_provider_url := u } } := by
  intro f
  induction f with
  | zero => intro s s' i r t h; simp [validate_loop1] at h
  | succ f ih =>
    intro s s' i r t h
    rw [validate_loop1] at h
    split at h
    · simp only [Res.ok.injEq] at h
      exact ⟨s.oidc_config.oidc_provider_url, h.1.symm⟩
    · obtain ⟨s1, i1, t1, t2, h1, h2, _⟩ := Res.bind_eq_ok h
      obtain ⟨t0, hp, _⟩ := Res.prependTrace_eq_ok h1
      obtain ⟨u1, rfl⟩ := prompt_oidc_provider_url_ok hp
      obtain ⟨u, hu⟩ := ih h2
      exact ⟨u, hu⟩

theorem validate_loop1_ok_truthy : ∀ {f : Nat} {s s' : GuidedContext} {i r : List String}
    {t : List Q}, validate_loop1 f s i = .ok s' r t →
    truthy s'.oidc_config.oidc_provider_url = true := by
  intro f
  induction f with
  | zero => intro s s' i r t h; simp [validate_loop1] at h
  | succ f ih =>
    intro s s' i r t h
    rw [validate_loop1] at h
    split at h
    · rename_i hcond
      simp only [Res.ok.injEq] at h
      rw [← h.1]
      exact hcond
    · obtain ⟨s1, i1, t1, t2, h1, h2, _⟩ := Res.bind_eq_ok h
      exact ih h2

theorem validate_loop2_ok : ∀ {f : Nat} {s s' : GuidedContext} {i r : List String}
    {t : List Q}, validate_loop2 f s i = .ok s' r t →
    ∃ u, s' = { s with oidc_config := { s.oidc_config with oidc_provider_url := u } } := by
  intro f
  induction f with
  | zero => intro s s' i r t h; simp [validate_loop2] at h
  | succ f ih =>
    intro s s' i r t h
    rw [validate_loop2] at h
    split at h
    · simp only [Res.ok.injEq] at h
      exact ⟨s.oidc_config.oidc_provider_url, h.1.symm⟩
    · obtain ⟨s1, i1, t1, t2, h1, h2, _⟩ := Res.bind_eq_ok h
      obtain ⟨t0, hp, _⟩ := Res.prependTrace_eq_ok h1
      obtain ⟨u1, rfl⟩ := prompt_oidc_provider_url_ok hp
      obtain ⟨u, hu⟩ := ih h2
      exact ⟨u, hu⟩

theorem validate_loop2_ok_contains : ∀ {f : Nat} {s s' : GuidedContext} {i r : List String}
    {t : List Q}, validate_loop2 f s i = .ok s' r t →
    strContainsSub (s'.oidc_config.oidc_provider_url.getD "") "https://" = true := by
  intro f
  induction f with
  | zero => intro s s' i r t h; simp [validate_loop2] at h
  | succ f ih =>
    intro s s' i r t h
    rw [validate_loop2] at h
    split at h
    · rename_i hcond
      simp only [Res.ok.injEq] at h
      rw [← h.1]
      exact hcond
    · obtain ⟨s1, i1, t1, t2, h1, h2, _⟩ := Res.bind_eq_ok h
      exact ih h2

theorem validate_loop1_trace_mem : ∀ {f : Nat} {q : Q} {s : GuidedContext} {i : List String},
    q ∈ (validate_loop1 f s i).trace → q = Q.echoEmptyUrlGuidance ∨ q = Q.oidcUrl := by
  intro f
  induction f with
  | zero => intro q s i h; simp [validate_loop1, Res.trace] at h
  | succ f ih =>
    intro q s i h
    rw [validate_loop1] at h
    split at h
    · simp [Res.trace] at h
    · rcases Res.mem_trace_bind h with h | ⟨s1, i1, t1, _, h⟩
      · rw [Res.trace_prependTrace, prompt_oidc_provider_url_trace] at h
        simp at h
        rcases h with h | h
        · exact Or.inl h
        · exact Or.inr h
      · exact ih h

theorem validate_loop2_trace_mem : ∀ {f : Nat} {q : Q} {s : GuidedContext} {i : List String},
    q ∈ (validate_loop2 f s i).trace → q = Q.echoSchemeGuidance ∨ q = Q.oidcUrl := by
  intro f
  induction f with
  | zero => intro q s i h; simp [validate_loop2, Res.trace] at h
  | succ f ih =>
    intro q s i h
    rw [validate_loop2] at h
    split at h
    · simp [Res.trace] at h
    · rcases Res.mem_trace_bind h with h | ⟨s1, i1, t1, _, h⟩
      · rw [Res.trace_prependTrace, prompt_oidc_provider_url_trace] at h
        simp at h
        rcases h with h | h
        · exact Or.inl h
        · exact Or.inr h
      · exact ih h

theorem validate_trace_nil {f : Nat} {s : GuidedContext} {i : List String}
    (h1 : truthy s.oidc_config.oidc_provider_url = true)
    (h2 : strContainsSub (s.oidc_config.oidc_provider_url.getD "") "https://" = true) :
    (validate_oidc_provider_url f s i).trace = [] := by
  unfold validate_oidc_provider_url
  cases f with
  | zero => rfl
  | succ f =>
    have l1 : validate_loop1 (f + 1) s i = .ok s i [] := by
      rw [validate_loop1]; simp [h1]
    rw [l1]
    simp [Res.bind, Res.prependTrace, validate_loop2, h2, Res.trace]

theorem validate_trace_mem {f : Nat} {q : Q} {s : GuidedContext} {i : List String}
    (h : q ∈ (validate_oidc_provider_url f s i).trace) :
    q = Q.echoEmptyUrlGuidance ∨ q = Q.echoSchemeGuidance ∨
      (q = Q.oidcUrl ∧ (truthy s.oidc_config.oidc_provider_url = false ∨
        strContainsSub (s.oidc_config.oidc_provider_url.getD "") "https://" = false)) := by
  by_cases h1 : truthy s.oidc_config.oidc_provider_url = true
  · by_cases h2 : strContainsSub (s.oidc_config.oidc_provider_url.getD "") "https://" = true
    · rw [validate_trace_nil h1 h2] at h
      simp at h
    · unfold validate_oidc_provider_url at h
      rcases Res.mem_trace_bind h with h | ⟨s1, i1, t1, e1, h⟩
      · rcases validate_loop1_trace_mem h with h | h
        · exact Or.inl h
        · exact Or.inr (Or.inr ⟨h, Or.inr (by simpa using h2)⟩)
      · rcases validate_loop2_trace_mem h with h | h
        · exact Or.inr (Or.inl h)
        · exact Or.inr (Or.inr ⟨h, Or.inr (by simpa using h2)⟩)
  · unfold validate_oidc_provider_url at h
    rcases Res.mem_trace_bind h with h | ⟨s1, i1, t1, e1, h⟩
    · rcases validate_loop1_trace_mem h with h | h
      · exact Or.inl h
      · exact Or.inr (Or.inr ⟨h, Or.inl (by simpa using h1)⟩)
    · rcases validate_loop2_trace_mem h with h | h
      · exact Or.inr (Or.inl h)
      · exact Or.inr (Or.inr ⟨h, Or.inl (by simpa using h1)⟩)

theorem validate_ok_shape {f : Nat} {s s' : GuidedContext} {i r : List String} {t : List Q}
    (h : validate_oidc_provider_url f s i = .ok s' r t) :
    ∃ u, s' = { s with oidc_config := { s.oidc_config with oidc_provider_url := u } } := by
  unfold validate_oidc_provider_url at h
  obtain ⟨s1, i1, t1, t2, h1, h2, _⟩ := Res.bind_eq_ok h
  obtain ⟨u1, rfl⟩ := validate_loop1_ok h1
  obtain ⟨u, hu⟩ := validate_loop2_ok h2
  exact ⟨u, hu⟩

theorem validate_ok_contains {f : Nat} {s s' : GuidedContext} {i r : List String} {t : List Q}
    (h : validate_oidc_provider_url f s i = .ok s' r t) :
    strContainsSub (s'.oidc_config.oidc_provider_url.getD "") "https://" = true := by
  unfold validate_oidc_provider_url at h
  obtain ⟨s1, i1, t1, t2, h1, h2, _⟩ := Res.bind_eq_ok h
  exact validate_loop2_ok_contains h2

theorem contains_https_truthy {u : Option String}
    (h : strContainsSub (u.getD "") "https://" = true) : truthy u = true := by
  cases u with
  | none => exact absurd h (by decide)
  | some v =>
    cases hv : v.data with
    | nil =>
      rw [strContainsSub, Option.getD, hv] at h
      exact absurd h (by decide)
    | cons c cs => simp [truthy, hv]

theorem prompt_subject_claim_trace_mem {q : Q} {s : GuidedContext} {i : List String}
    (h : q ∈ (prompt_subject_claim s i).trace) :
    (q = Q.githubOrg ∧ truthy s.github_config.github_org = false) ∨
    (q = Q.githubRepo ∧ truthy s.github_config.github_repo = false) ∨
    (q = Q.deploymentBranch ∧ (truthy s.github_config.deployment_branch = false ∨
      truthy s.gitlab_config.deployment_branch = false)) ∨
    (q = Q.gitlabGroup ∧ truthy s.gitlab_config.gitlab_group = false) ∨
    (q = Q.gitlabProject ∧ truthy s.gitlab_config.gitlab_project = false) ∨
    (q = Q.bitbucketUuid ∧ truthy s.bitbucket_config.bitbucket_repo_uuid = false) := by
  unfold prompt_subject_claim at h
  split at h
  · rcases Res.mem_trace_bind h with h | ⟨s1, i1, t1, e1, h⟩
    · split at h
      · simp [Res.trace] at h
      · rename_i horg
        rw [prompt_github_org_trace] at h
        simp at h
        exact Or.inl ⟨h, by simpa using horg⟩
    · have hs1 : s1.github_config.github_repo = s.github_config.github_repo ∧
          s1.github_config.deployment_branch = s.github_config.deployment_branch ∧
          s1.gitlab_config.deployment_branch = s.gitlab_config.deployment_branch := by
        split at e1
        · simp only [Res.ok.injEq] at e1
          rw [← e1.1]
          exact ⟨rfl, rfl, rfl⟩
        · obtain ⟨u, rfl⟩ := prompt_github_org_ok e1
          exact ⟨rfl, rfl, rfl⟩
      rcases Res.mem_trace_bind h with h | ⟨s2, i2, t2, e2, h⟩
      · split at h
        · simp [Res.trace] at h
        · rename_i hrepo
          rw [prompt_github_repo_trace] at h
          simp at h
          refine Or.inr (Or.inl ⟨h, ?_⟩)
          rw [← hs1.1]
          simpa using hrepo
      · have hs2 : s2.github_config.deployment_branch = s.github_config.deployment_branch ∧
            s2.gitlab_config.deployment_branch = s.gitlab_config.deployment_branch := by
          split at e2
          · simp only [Res.ok.injEq] at e2
            rw [← e2.1]
            exact ⟨hs1.2.1, hs1.2.2⟩
          · obtain ⟨u, rfl⟩ := prompt_github_repo_ok e2
            exact ⟨hs1.2.1, hs1.2.2⟩
        split at h
        · simp [Res.trace] at h
        · rename_i hbr
          rw [prompt_deployment_branch_trace] at h
          simp at h
          refine Or.inr (Or.inr (Or.inl ⟨h, Or.inl ?_⟩))
          rw [← hs2.1]
          simpa using hbr
  · split at h
    · rcases Res.mem_trace_bind h with h | ⟨s1, i1, t1, e1, h⟩
      · split at h
        · simp [Res.trace] at h
        · rename_i hgrp
          rw [prompt_gitlab_group_trace] at h
          simp at h
          exact Or.inr (Or.inr (Or.inr (Or.inl ⟨h, by simpa using hgrp⟩)))
      · have hs1 : s1.gitlab_config.gitlab_project = s.gitlab_config.gitlab_project ∧
            s1.github_config.deployment_branch = s.github_config.deployment_branch ∧
            s1.gitlab_config.deployment_branch = s.gitlab_config.deployment_branch := by
          split at e1
          · simp only [Res.ok.injEq] at e1
            rw [← e1.1]
            exact ⟨rfl, rfl, rfl⟩
          · obtain ⟨u, rfl⟩ := prompt_gitlab_group_ok e1
            exact ⟨rfl, rfl, rfl⟩
        rcases Res.mem_trace_bind h with h | ⟨s2, i2, t2, e2, h⟩
        · split at h
          · simp [Res.trace] at h
          · rename_i hproj
            rw [prompt_gitlab_project_trace] at h
            simp at h
            refine Or.inr (Or.inr (Or.inr (Or.inr (Or.inl ⟨h, ?_⟩))))
            rw [← hs1.1]
            simpa using hproj
        · have hs2 : s2.github_config.deployment_branch = s.github_config.deployment_branch ∧
              s2.gitlab_config.deployment_branch = s.gitlab_config.deployment_branch := by
            split at e2
            · simp only [Res.ok.injEq] at e2
              rw [← e2.1]
              exact ⟨hs1.2.1, hs1.2.2⟩
            · obtain ⟨u, rfl⟩ := prompt_gitlab_project_ok e2
              exact ⟨hs1.2.1, hs1.2.2⟩
          split at h
          · simp [Res.trace] at h
          · rename_i hbr
            rw [prompt_deployment_branch_trace] at h
            simp at h
            refine Or.inr (Or.inr (Or.inl ⟨h, Or.inr ?_⟩))
            rw [← hs2.2]
            simpa using hbr
    · split at h
      · split at h
        · simp [Res.trace] at h
        · rename_i huuid
          rw [prompt_bitbucket_repo_uuid_trace] at h
          simp at h
          exact Or.inr (Or.inr (Or.inr (Or.inr (Or.inr ⟨h, by simpa using huuid⟩))))
      · simp [Res.trace] at h

theorem prompt_subject_claim_ok {s s' : GuidedContext} {i r : List String} {t : List Q}
    (h : prompt_subject_claim s i = .ok s' r t) :
    ∃ gh gl bb, s' = { s with
      github_config := gh,
      gitlab_config := gl,
      bitbucket_config := bb } := by
  unfold prompt_subject_claim at h
  split at h
  · obtain ⟨s1, i1, t1, t2, e1, h, _⟩ := Res.bind_eq_ok h
    have hs1 : ∃ g, s1 = { s with github_config := g } := by
      split at e1
      · simp only [Res.ok.injEq] at e1
        exact ⟨s.github_config, e1.1.symm⟩
      · obtain ⟨u, rfl⟩ := prompt_github_org_ok e1
        exact ⟨_, rfl⟩
    obtain ⟨g1, rfl⟩ := hs1
    obtain ⟨s2, i2, t3, t4, e2, h, _⟩ := Res.bind_eq_ok h
    have hs2 : ∃ g, s2 = { s with github_config := g } := by
      split at e2
      · simp only [Res.ok.injEq] at e2
        exact ⟨g1, e2.1.symm⟩
      · obtain ⟨u, rfl⟩ := prompt_github_repo_ok e2
        exact ⟨_, rfl⟩
    obtain ⟨g2, rfl⟩ := hs2
    split at h
    · simp only [Res.ok.injEq] at h
      exact ⟨g2, s.gitlab_config, s.bitbucket_config, h.1.symm⟩
    · obtain ⟨u, hu⟩ := prompt_deployment_branch_ok h
      exact ⟨_, _, s.bitbucket_config, hu⟩
  · split at h
    · obtain ⟨s1, i1, t1, t2, e1, h, _⟩ := Res.bind_eq_ok h
      have hs1 : ∃ g, s1 = { s with gitlab_config := g } := by
        split at e1
        · simp only [Res.ok.injEq] at e1
          exact ⟨s.gitlab_config, e1.1.symm⟩
        · obtain ⟨u, rfl⟩ := prompt_gitlab_group_ok e1
          exact ⟨_, rfl⟩
      obtain ⟨g1, rfl⟩ := hs1
      obtain ⟨s2, i2, t3, t4, e2, h, _⟩ := Res.bind_eq_ok h
      have hs2 : ∃ g, s2 = { s with gitlab_config := g } := by
        split at e2
        · simp only [Res.ok.injEq] at e2
          exact ⟨g1, e2.1.symm⟩
        · obtain ⟨u, rfl⟩ := prompt_gitlab_project_ok e2
          exact ⟨_, rfl⟩
      obtain ⟨g2, rfl⟩ := hs2
      split at h
      · simp only [Res.ok.injEq] at h
        exact ⟨s.github_config, g2, s.bitbucket_config, h.1.symm⟩
      · obtain ⟨u, hu⟩ := prompt_deployment_branch_ok h
        exact ⟨_, _, s.bitbucket_config, hu⟩
    · split at h
      · split at h
        · simp only [Res.ok.injEq] at h
          exact ⟨s.github_config, s.gitlab_config, s.bitbucket_config, h.1.symm⟩
        · obtain ⟨u, hu⟩ := prompt_bitbucket_repo_uuid_ok h
          exact ⟨_, _, _, hu⟩
      · simp only [Res.ok.injEq] at h
        exact ⟨s.github_config, s.gitlab_config, s.bitbucket_config, h.1.symm⟩

theorem oidc_or_user_step_trace_mem {q : Q} {s : GuidedContext} {i : List String}
    (h : q ∈ (oidc_or_user_step s i).trace) :
    (q = Q.oidcProvider ∧ truthy s.oidc_config.oidc_provider = false) ∨
    (q = Q.oidcUrl ∧ (truthy s.oidc_config.oidc_provider_url = false ∨
      strContainsSub (s.oidc_config.oidc_provider_url.getD "") "https://" = false)) ∨
    q = Q.echoEmptyUrlGuidance ∨ q = Q.echoSchemeGuidance ∨
    (q = Q.oidcClientId ∧ truthy s.oidc_config.oidc_client_id = false) ∨
    (q = Q.githubOrg ∧ truthy s.github_config.github_org = false) ∨
    (q = Q.githubRepo ∧ truthy s.github_config.github_repo = false) ∨
    (q = Q.deploymentBranch ∧ (truthy s.github_config.deployment_branch = false ∨
      truthy s.gitlab_config.deployment_branch = false)) ∨
    (q = Q.gitlabGroup ∧ truthy s.gitlab_config.gitlab_group = false) ∨
    (q = Q.gitlabProject ∧ truthy s.gitlab_config.gitlab_project = false) ∨
    (q = Q.bitbucketUuid ∧ truthy s.bitbucket_config.bitbucket_repo_uuid = false) ∨
    (q = Q.pipelineUser ∧ truthy s.pipeline_user_arn = false) := by
  unfold oidc_or_user_step at h
  split at h
  · rcases Res.mem_trace_bind h with h | ⟨s1, i1, t1, e1, h⟩
    · split at h
      · simp [Res.trace] at h
      · rename_i hprov
        rw [prompt_oidc_provider_trace] at h
        simp at h
        exact Or.inl ⟨h, by simpa using hprov⟩
    · have hs1 : ∃ p, s1 = { s with oidc_config :=
          { s.oidc_config with oidc_provider := p } } := by
        split at e1
        · simp only [Res.ok.injEq] at e1
          exact ⟨s.oidc_config.oidc_provider, e1.1.symm⟩
        · obtain ⟨p, rfl⟩ := prompt_oidc_provider_ok e1
          exact ⟨some p, rfl⟩
      obtain ⟨p1, rfl⟩ := hs1
      rcases Res.mem_trace_bind h with h | ⟨s2, i2, t2, e2, h⟩
      · split at h
        · simp [Res.trace] at h
        · rename_i hurl
          rw [prompt_oidc_provider_url_trace] at h
          simp at h
          exact Or.inr (Or.inl ⟨h, Or.inl (by simpa using hurl)⟩)
      · rcases Res.mem_trace_bind h with h | ⟨s3, i3, t3, e3, h⟩
        · -- membership in the validation gate trace
          split at e2
          · -- URL was already set: the gate sees the original URL
            rename_i hurl
            simp only [Res.ok.injEq] at e2
            obtain ⟨rfl, rfl, rfl⟩ := e2
            rcases validate_trace_mem h with h | h | ⟨hq, hc⟩
            · exact Or.inr (Or.inr (Or.inl h))
            · exact Or.inr (Or.inr (Or.inr (Or.inl h)))
            · refine Or.inr (Or.inl ⟨hq, ?_⟩)
              rcases hc with hc | hc
              · exact Or.inl (by simpa using hc)
              · exact Or.inr (by simpa using hc)
          · -- URL was just prompted: the original URL was empty
            rename_i hurl
            rcases validate_trace_mem h with h | h | ⟨hq, _⟩
            · exact Or.inr (Or.inr (Or.inl h))
            · exact Or.inr (Or.inr (Or.inr (Or.inl h)))
            · exact Or.inr (Or.inl ⟨hq, Or.inl (by simpa using hurl)⟩)
        · -- after the gate: the client id and subject-claim questions
          have hs2 : s2.oidc_config.oidc_client_id = s.oidc_config.oidc_client_id ∧
              s2.github_config = s.github_config ∧ s2.gitlab_config = s.gitlab_config ∧
              s2.bitbucket_config = s.bitbucket_config := by
            split at e2
            · simp only [Res.ok.injEq] at e2
              rw [← e2.1]
              exact ⟨rfl, rfl, rfl, rfl⟩
            · obtain ⟨u, rfl⟩ := prompt_oidc_provider_url_ok e2
              exact ⟨rfl, rfl, rfl, rfl⟩
          obtain ⟨u3, rfl⟩ := validate_ok_shape e3
          rcases Res.mem_trace_bind h with h | ⟨s4, i4, t4, e4, h⟩
          · split at h
            · simp [Res.trace] at h
            · rename_i hcid
              rw [prompt_oidc_client_id_trace] at h
              simp at h
              refine Or.inr (Or.inr (Or.inr (Or.inr (Or.inl ⟨h, ?_⟩))))
              rw [← hs2.1]
              simpa using hcid
          · have hs4 : s4.github_config = s.github_config ∧
                s4.gitlab_config = s.gitlab_config ∧
                s4.bitbucket_config = s.bitbucket_config := by
              split at e4
              · simp only [Res.ok.injEq] at e4
                rw [← e4.1]
                exact ⟨hs2.2.1, hs2.2.2.1, hs2.2.2.2⟩
              · obtain ⟨u, rfl⟩ := prompt_oidc_client_id_ok e4
                exact ⟨hs2.2.1, hs2.2.2.1, hs2.2.2.2⟩
            rcases prompt_subject_claim_trace_mem h with h | h | h | h | h | h
            · exact Or.inr (Or.inr (Or.inr (Or.inr (Or.inr (Or.inl
                ⟨h.1, by rw [← hs4.1]; exact h.2⟩)))))
            · exact Or.inr (Or.inr (Or.inr (Or.inr (Or.inr (Or.inr (Or.inl
                ⟨h.1, by rw [← hs4.1]; exact h.2⟩))))))
            · refine Or.inr (Or.inr (Or.inr (Or.inr (Or.inr (Or.inr (Or.inr (Or.inl
                ⟨h.1, ?_⟩)))))))
              rcases h.2 with hb | hb
              · exact Or.inl (by rw [← hs4.1]; exact hb)
              · exact Or.inr (by rw [← hs4.2.1]; exact hb)
            · exact Or.inr (Or.inr (Or.inr (Or.inr (Or.inr (Or.inr (Or.inr (Or.inr (Or.inl
                ⟨h.1, by rw [← hs4.2.1]; exact h.2⟩))))))))
            · exact Or.inr (Or.inr (Or.inr (Or.inr (Or.inr (Or.inr (Or.inr (Or.inr (Or.inr
                (Or.inl ⟨h.1, by rw [← hs4.2.1]; exact h.2⟩)))))))))
            · exact Or.inr (Or.inr (Or.inr (Or.inr (Or.inr (Or.inr (Or.inr (Or.inr (Or.inr
                (Or.inr (Or.inl ⟨h.1, by rw [← hs4.2.2]; exact h.2⟩))))))))))
  · split at h
    · simp [Res.trace] at h
    · rename_i huser
      rw [prompt_pipeline_user_trace] at h
      simp at h
      exact Or.inr (Or.inr (Or.inr (Or.inr (Or.inr (Or.inr (Or.inr (Or.inr (Or.inr (Or.inr
        (Or.inr ⟨h, by simpa using huser⟩))))))))))

theorem oidc_or_user_step_ok {s s' : GuidedContext} {i r : List String} {t : List Q}
    (h : oidc_or_user_step s i = .ok s' r t) :
    ∃ oc gh gl bb pu, s' = { s with
      oidc_config := oc,
      github_config := gh,
      gitlab_config := gl,
      bitbucket_config := bb,
      pipeline_user_arn := pu } := by
  unfold oidc_or_user_step at h
  split at h
  · obtain ⟨s1, i1, t1, t2, e1, h, _⟩ := Res.bind_eq_ok h
    have hs1 : ∃ oc, s1 = { s with oidc_config := oc } := by
      split at e1
      · simp only [Res.ok.injEq] at e1
        exact ⟨s.oidc_config, e1.1.symm⟩
      · obtain ⟨p, rfl⟩ := prompt_oidc_provider_ok e1
        exact ⟨_, rfl⟩
    obtain ⟨oc1, rfl⟩ := hs1
    obtain ⟨s2, i2, t3, t4, e2, h, _⟩ := Res.bind_eq_ok h
    have hs2 : ∃ oc, s2 = { s with oidc_config := oc } := by
      split at e2
      · simp only [Res.ok.injEq] at e2
        exact ⟨oc1, e2.1.symm⟩
      · obtain ⟨u, rfl⟩ := prompt_oidc_provider_url_ok e2
        exact ⟨_, rfl⟩
    obtain ⟨oc2, rfl⟩ := hs2
    obtain ⟨s3, i3, t5, t6, e3, h, _⟩ := Res.bind_eq_ok h
    obtain ⟨u3, rfl⟩ := validate_ok_shape e3
    obtain ⟨s4, i4, t7, t8, e4, h, _⟩ := Res.bind_eq_ok h
    have hs4 : ∃ oc, s4 = { s with oidc_config := oc } := by
      split at e4
      · simp only [Res.ok.injEq] at e4
        exact ⟨_, e4.1.symm⟩
      · obtain ⟨u, rfl⟩ := prompt_oidc_client_id_ok e4
        exact ⟨_, rfl⟩
    obtain ⟨oc4, rfl⟩ := hs4
    obtain ⟨gh, gl, bb, hu⟩ := prompt_subject_claim_ok h
    exact ⟨oc4, gh, gl, bb, s.pipeline_user_arn, hu⟩
  · split at h
    · simp only [Res.ok.injEq] at h
      exact ⟨s.oidc_config, s.github_config, s.gitlab_config, s.bitbucket_config,
        s.pipeline_user_arn, h.1.symm⟩
    · obtain ⟨v, hv⟩ := prompt_pipeline_user_ok h
      exact ⟨s.oidc_config, s.github_config, s.gitlab_config, s.bitbucket_config,
        some v, hv⟩

/-- C7 (amended): during the initial sequential pass of run, a question
identifier appears in the trace only when its skip condition allows it:
every question with a pre-seeded (non-empty) field is skipped, except
that the account/credential question is always asked, the
permissions-provider question is asked whenever the OIDC option is
enabled, the provider is not already OIDC and no pipeline user is set
(even when it was pre-seeded with IAM), and the OIDC URL question can be
re-asked by the validation gate when the stored URL lacks the scheme. -/
theorem run_initial_trace_only_unfilled_questions (ext : Collab) (s : GuidedContext)
    (inputs : List String) (q : Q) (hq : q ∈ (runInitial ext s inputs).trace) :
    questionSkipConditions s q := by
  unfold runInitial at hq
  rcases Res.mem_trace_bind hq with h | ⟨s1, i1, t1, e1, hq⟩
  · obtain ⟨hqe, hc⟩ := stage_step_trace_mem h
    subst hqe
    exact hc
  · obtain ⟨v1, rfl⟩ := stage_step_ok e1
    rcases Res.mem_trace_bind hq with h | ⟨s2, i2, t2, e2, hq⟩
    · rcases prompt_account_id_trace_mem h with hqe | ⟨m, hqe⟩ <;> subst hqe <;> trivial
    · obtain ⟨p2, rfl⟩ := prompt_account_id_ok e2
      rcases Res.mem_trace_bind hq with h | ⟨s3, i3, t3, e3, hq⟩
      · obtain ⟨hqe, hc⟩ := region_step_trace_mem h
        subst hqe
        exact hc
      · obtain ⟨v3, rfl⟩ := region_step_ok e3
        rcases Res.mem_trace_bind hq with h | ⟨s4, i4, t4, e4, hq⟩
        · obtain ⟨hqe, hc1, hc2, hc3⟩ := perms_step_trace_mem h
          subst hqe
          exact ⟨hc1, hc2, hc3⟩
        · obtain ⟨v4, rfl⟩ := perms_step_ok e4
          rcases Res.mem_trace_bind hq with h | ⟨s5, i5, t5, e5, hq⟩
          · rcases oidc_or_user_step_trace_mem h with
              h | h | h | h | h | h | h | h | h | h | h | h
            · obtain ⟨hqe, hc⟩ := h; subst hqe; exact hc
            · obtain ⟨hqe, hc⟩ := h; subst hqe; exact hc
            · subst h; trivial
            · subst h; trivial
            · obtain ⟨hqe, hc⟩ := h; subst hqe; exact hc
            · obtain ⟨hqe, hc⟩ := h; subst hqe; exact hc
            · obtain ⟨hqe, hc⟩ := h; subst hqe; exact hc
            · obtain ⟨hqe, hc⟩ := h; subst hqe; exact hc
            · obtain ⟨hqe, hc⟩ := h; subst hqe; exact hc
            · obtain ⟨hqe, hc⟩ := h; subst hqe; exact hc
            · obtain ⟨hqe, hc⟩ := h; subst hqe; exact hc
            · obtain ⟨hqe, hc⟩ := h; subst hqe; exact hc
          · obtain ⟨oc, gh, gl, bb, pu, rfl⟩ := oidc_or_user_step_ok e5
            rcases Res.mem_trace_bind hq with h | ⟨s6, i6, t6, e6, hq⟩
            · obtain ⟨hqe, hc⟩ := exec_role_step_trace_mem h
              subst hqe
              exact hc
            · obtain ⟨v6, rfl⟩ := exec_role_step_ok e6
              rcases Res.mem_trace_bind hq with h | ⟨s7, i7, t7, e7, hq⟩
              · obtain ⟨hqe, hc⟩ := cfn_role_step_trace_mem h
                subst hqe
                exact hc
              · obtain ⟨v7, rfl⟩ := cfn_role_step_ok e7
                rcases Res.mem_trace_bind hq with h | ⟨s8, i8, t8, e8, hq⟩
                · obtain ⟨hqe, hc⟩ := bucket_step_trace_mem h
                  subst hqe
                  exact hc
                · obtain ⟨v8, rfl⟩ := bucket_step_ok e8
                  obtain ⟨hqe, hc⟩ := image_step_trace_mem hq
                  subst hqe
                  exact hc

/-- C7 counterexample: with every answer pre-seeded (profile included),
the initial pass still asks the account/credential question, so a
question whose field already holds a non-empty value does have its
prompt handler invoked. -/
theorem run_initial_always_asks_account :
    truthy ({ emptyCtx with
      profile := some "dev",
      stage_configuration_name := some "stage",
      region := some "us-west-2",
      pipeline_user_arn := some "arn:user",
      pipeline_execution_role_arn := some "arn:exec",
      cloudformation_execution_role_arn := some "arn:cfn",
      artifacts_bucket_arn := some "arn:bucket",
      image_repository_arn := some "arn:repo" } : GuidedContext).profile = true ∧
    Q.accountId ∈ (runInitial extW { emptyCtx with
      profile := some "dev",
      stage_configuration_name := some "stage",
      region := some "us-west-2",
      pipeline_user_arn := some "arn:user",
      pipeline_execution_role_arn := some "arn:exec",
      cloudformation_execution_role_arn := some "arn:cfn",
      artifacts_bucket_arn := some "arn:bucket",
      image_repository_arn := some "arn:repo" } ["2"]).trace := by
  exact ⟨by decide, by decide⟩

/-- C7 witness: on the empty state the stage question is asked, and the
theorem yields its skip condition. -/
theorem run_initial_trace_only_unfilled_questions_witness :
    Q.stageName ∈ (runInitial extW emptyCtx
      ["mystage", "2", "us-east-1", "1", "", "", "", "", "n"]).trace ∧
    questionSkipConditions emptyCtx Q.stageName :=
  ⟨by decide, run_initial_trace_only_unfilled_questions extW emptyCtx
    ["mystage", "2", "us-east-1", "1", "", "", "", "", "n"] Q.stageName (by decide)⟩

/-- C1 (amended): for a state with a chosen OIDC provider, the
subject-claim question leaves the fields of the other providers
unchanged, except that the deployment-branch prompt, shared between
GitHub and GitLab, writes the answered branch into both the GitHub and
the GitLab configuration. -/
theorem prompt_subject_claim_other_provider_fields_unchanged
    (s s' : GuidedContext) (inputs r : List String) (t : List Q)
    (h : prompt_subject_claim s inputs = .ok s' r t) :
    (s.oidc_config.oidc_provider = some GITHUB_ACTIONS →
      s'.gitlab_config.gitlab_group = s.gitlab_config.gitlab_group ∧
      s'.gitlab_config.gitlab_project = s.gitlab_config.gitlab_project ∧
      s'.bitbucket_config = s.bitbucket_config) ∧
    (s.oidc_config.oidc_provider = some GITLAB →
      s'.github_config.github_org = s.github_config.github_org ∧
      s'.github_config.github_repo = s.github_config.github_repo ∧
      s'.bitbucket_config = s.bitbucket_config) ∧
    (s.oidc_config.oidc_provider = some BITBUCKET →
      s'.github_config = s.github_config ∧ s'.gitlab_config = s.gitlab_config) := by
  unfold prompt_subject_claim at h
  split at h
  · rename_i hgh
    obtain ⟨s1, i1, t1, t2, e1, h, _⟩ := Res.bind_eq_ok h
    have hs1 : ∃ g, s1 = { s with github_config := g } := by
      split at e1
      · simp only [Res.ok.injEq] at e1
        exact ⟨s.github_config, e1.1.symm⟩
      · obtain ⟨u, rfl⟩ := prompt_github_org_ok e1
        exact ⟨_, rfl⟩
    obtain ⟨g1, rfl⟩ := hs1
    obtain ⟨s2, i2, t3, t4, e2, h, _⟩ := Res.bind_eq_ok h
    have hs2 : ∃ g, s2 = { s with github_config := g } := by
      split at e2
      · simp only [Res.ok.injEq] at e2
        exact ⟨g1, e2.1.symm⟩
      · obtain ⟨u, rfl⟩ := prompt_github_repo_ok e2
        exact ⟨_, rfl⟩
    obtain ⟨g2, rfl⟩ := hs2
    refine ⟨fun _ => ?_, fun hgl => ?_, fun hbb => ?_⟩
    · split at h
      · simp only [Res.ok.injEq] at h
        rw [← h.1]
        exact ⟨rfl, rfl, rfl⟩
      · obtain ⟨u, rfl⟩ := prompt_deployment_branch_ok h
        exact ⟨rfl, rfl, rfl⟩
    · rw [hgh] at hgl
      exact absurd hgl (by decide)
    · rw [hgh] at hbb
      exact absurd hbb (by decide)
  · split at h
    · rename_i hne hgl
      obtain ⟨s1, i1, t1, t2, e1, h, _⟩ := Res.bind_eq_ok h
      have hs1 : ∃ g, s1 = { s with gitlab_config := g } := by
        split at e1
        · simp only [Res.ok.injEq] at e1
          exact ⟨s.gitlab_config, e1.1.symm⟩
        · obtain ⟨u, rfl⟩ := prompt_gitlab_group_ok e1
          exact ⟨_, rfl⟩
      obtain ⟨g1, rfl⟩ := hs1
      obtain ⟨s2, i2, t3, t4, e2, h, _⟩ := Res.bind_eq_ok h
      have hs2 : ∃ g, s2 = { s with gitlab_config := g } := by
        split at e2
        · simp only [Res.ok.injEq] at e2
          exact ⟨g1, e2.1.symm⟩
        · obtain ⟨u, rfl⟩ := prompt_gitlab_project_ok e2
          exact ⟨_, rfl⟩
      obtain ⟨g2, rfl⟩ := hs2
      refine ⟨fun hgh => ?_, fun _ => ?_, fun hbb => ?_⟩
      · rw [hgl] at hgh
        exact absurd hgh (by decide)
      · split at h
        · simp only [Res.ok.injEq] at h
          rw [← h.1]
          exact ⟨rfl, rfl, rfl⟩
        · obtain ⟨u, rfl⟩ := prompt_deployment_branch_ok h
          exact ⟨rfl, rfl, rfl⟩
      · rw [hgl] at hbb
        exact absurd hbb (by decide)
    · split at h
      · rename_i hne1 hne2 hbb
        refine ⟨fun hgh => ?_, fun hgl => ?_, fun _ => ?_⟩
        · rw [hbb] at hgh
          exact absurd hgh (by decide)
        · rw [hbb] at hgl
          exact absurd hgl (by decide)
        · split at h
          · simp only [Res.ok.injEq] at h
            rw [← h.1]
            exact ⟨rfl, rfl⟩
          · obtain ⟨u, rfl⟩ := prompt_bitbucket_repo_uuid_ok h
            exact ⟨rfl, rfl⟩
      · rename_i hne1 hne2 hne3
        simp only [Res.ok.injEq] at h
        rw [← h.1]
        exact ⟨fun _ => ⟨rfl, rfl, rfl⟩, fun _ => ⟨rfl, rfl, rfl⟩, fun _ => ⟨rfl, rfl⟩⟩

/-- C1 counterexample: with GitHub chosen and every subject-claim field
empty, answering the GitHub sub-prompts (accepting the default branch)
also populates the GitLab deployment-branch field, which the claim says
stays unset. -/
theorem prompt_subject_claim_writes_gitlab_branch_for_github :
    ({ emptyCtx with oidc_config := oidcCfg (some GITHUB_ACTIONS) none none } :
      GuidedContext).gitlab_config.deployment_branch = none ∧
    (Res.stateOf? (prompt_subject_claim
        { emptyCtx with oidc_config := oidcCfg (some GITHUB_ACTIONS) none none }
        ["acme", "svc", ""])).map (fun s' => s'.gitlab_config.deployment_branch) =
      some (some "main") := by
  exact ⟨by decide, by decide⟩

/-- C1 witness: with GitHub chosen, org and repo pre-filled and only the
branch prompted, the theorem yields that the GitLab group and project
are unchanged. -/
theorem prompt_subject_claim_other_provider_fields_unchanged_witness :
    prompt_subject_claim
      { emptyCtx with
        oidc_config := oidcCfg (some GITHUB_ACTIONS) none none,
        github_config := ghCfg (some "acme") (some "svc") none,
        gitlab_config := glCfg (some "grp") none none } ["rel"] =
      .ok { emptyCtx with
        oidc_config := oidcCfg (some GITHUB_ACTIONS) none none,
        github_config := ghCfg (some "acme") (some "svc") (some "rel"),
        gitlab_config := glCfg (some "grp") none (some "rel") } [] [Q.deploymentBranch] ∧
    (({ emptyCtx with
        oidc_config := oidcCfg (some GITHUB_ACTIONS) none none,
        github_config := ghCfg (some "acme") (some "svc") (some "rel"),
        gitlab_config := glCfg (some "grp") none (some "rel") } :
          GuidedContext).gitlab_config.gitlab_group = some "grp" ∧
      ({ emptyCtx with
        oidc_config := oidcCfg (some GITHUB_ACTIONS) none none,
        github_config := ghCfg (some "acme") (some "svc") (some "rel"),
        gitlab_config := glCfg (some "grp") none (some "rel") } :
          GuidedContext).gitlab_config.gitlab_project = none) := by
  refine ⟨by decide, ?_⟩
  have h := (prompt_subject_claim_other_provider_fields_unchanged
    { emptyCtx with
      oidc_config := oidcCfg (some GITHUB_ACTIONS) none none,
      github_config := ghCfg (some "acme") (some "svc") none,
      gitlab_config := glCfg (some "grp") none none }
    { emptyCtx with
      oidc_config := oidcCfg (some GITHUB_ACTIONS) none none,
      github_config := ghCfg (some "acme") (some "svc") (some "rel"),
      gitlab_config := glCfg (some "grp") none (some "rel") }
    ["rel"] [] [Q.deploymentBranch] (by decide)).1 (by decide)
  exact ⟨h.1, h.2.1⟩

theorem prompt_stage_configuration_name_ne_exited {s : GuidedContext} {i : List String}
    {c : Nat} {t : List Q} : prompt_stage_configuration_name s i ≠ .exited c t := by
  unfold prompt_stage_configuration_name; split <;> simp

theorem prompt_region_name_ne_exited {ext : Collab} {s : GuidedContext} {i : List String}
    {c : Nat} {t : List Q} : prompt_region_name ext s i ≠ .exited c t := by
  unfold prompt_region_name; split <;> simp

theorem prompt_pipeline_user_ne_exited {s : GuidedContext} {i : List String}
    {c : Nat} {t : List Q} : prompt_pipeline_user s i ≠ .exited c t := by
  unfold prompt_pipeline_user; split <;> simp

theorem prompt_pipeline_execution_role_ne_exited {s : GuidedContext} {i : List String}
    {c : Nat} {t : List Q} : prompt_pipeline_execution_role s i ≠ .exited c t := by
  unfold prompt_pipeline_execution_role; split <;> simp

theorem prompt_cloudformation_execution_role_ne_exited {s : GuidedContext}
    {i : List String} {c : Nat} {t : List Q} :
    prompt_cloudformation_execution_role s i ≠ .exited c t := by
  unfold prompt_cloudformation_execution_role; split <;> simp

theorem prompt_artifacts_bucket_ne_exited {s : GuidedContext} {i : List String}
    {c : Nat} {t : List Q} : prompt_artifacts_bucket s i ≠ .exited c t := by
  unfold prompt_artifacts_bucket; split <;> simp

theorem prompt_image_repository_ne_exited {s : GuidedContext} {i : List String}
    {c : Nat} {t : List Q} : prompt_image_repository s i ≠ .exited c t := by
  unfold prompt_image_repository
  split
  · simp
  · split <;> simp
  · simp

theorem prompt_permissions_provider_ne_exited {s : GuidedContext} {i : List String}
    {c : Nat} {t : List Q} : prompt_permissions_provider s i ≠ .exited c t := by
  unfold prompt_permissions_provider; split <;> simp

theorem prompt_oidc_provider_ne_exited {s : GuidedContext} {i : List String}
    {c : Nat} {t : List Q} : prompt_oidc_provider s i ≠ .exited c t := by
  unfold prompt_oidc_provider
  split
  · simp
  · split
    · simp
    · split
      · simp
      · split <;> simp

theorem prompt_oidc_provider_url_ne_exited {s : GuidedContext} {i : List String}
    {c : Nat} {t : List Q} : prompt_oidc_provider_url s i ≠ .exited c t := by
  unfold prompt_oidc_provider_url
  split
  · simp
  · split <;> simp

theorem prompt_oidc_client_id_ne_exited {s : GuidedContext} {i : List String}
    {c : Nat} {t : List Q} : prompt_oidc_client_id s i ≠ .exited c t := by
  unfold prompt_oidc_client_id
  split
  · simp
  · split <;> simp

theorem prompt_bitbucket_repo_uuid_ne_exited {s : GuidedContext} {i : List String}
    {c : Nat} {t : List Q} : prompt_bitbucket_repo_uuid s i ≠ .exited c t := by
  unfold prompt_bitbucket_repo_uuid; split <;> simp

theorem prompt_gitlab_group_ne_exited {s : GuidedContext} {i : List String}
    {c : Nat} {t : List Q} : prompt_gitlab_group s i ≠ .exited c t := by
  unfold prompt_gitlab_group; split <;> simp

theorem prompt_gitlab_project_ne_exited {s : GuidedContext} {i : List String}
    {c : Nat} {t : List Q} : prompt_gitlab_project s i ≠ .exited c t := by
  unfold prompt_gitlab_project; split <;> simp

theorem prompt_github_org_ne_exited {s : GuidedContext} {i : List String}
    {c : Nat} {t : List Q} : prompt_github_org s i ≠ .exited c t := by
  unfold prompt_github_org; split <;> simp

theorem prompt_github_repo_ne_exited {s : GuidedContext} {i : List String}
    {c : Nat} {t : List Q} : prompt_github_repo s i ≠ .exited c t := by
  unfold prompt_github_repo; split <;> simp

theorem prompt_deployment_branch_ne_exited {s : GuidedContext} {i : List String}
    {c : Nat} {t : List Q} : prompt_deployment_branch s i ≠ .exited c t := by
  unfold prompt_deployment_branch; split <;> simp

theorem validate_loop1_ne_exited : ∀ {f : Nat} {s : GuidedContext} {i : List String}
    {c : Nat} {t : List Q}, validate_loop1 f s i ≠ .exited c t := by
  intro f
  induction f with
  | zero => intro s i c t h; simp [validate_loop1] at h
  | succ f ih =>
    intro s i c t h
    rw [validate_loop1] at h
    split at h
    · simp at h
    · rcases Res.bind_eq_exited h with ⟨t', he⟩ | ⟨s1, i1, t1, t2, h1, h2⟩
      · obtain ⟨t0, hp, _⟩ := Res.prependTrace_eq_exited he
        exact prompt_oidc_provider_url_ne_exited hp
      · exact ih h2

theorem validate_loop2_ne_exited : ∀ {f : Nat} {s : GuidedContext} {i : List String}
    {c : Nat} {t : List Q}, validate_loop2 f s i ≠ .exited c t := by
  intro f
  induction f with
  | zero => intro s i c t h; simp [validate_loop2] at h
  | succ f ih =>
    intro s i c t h
    rw [validate_loop2] at h
    split at h
    · simp at h
    · rcases Res.bind_eq_exited h with ⟨t', he⟩ | ⟨s1, i1, t1, t2, h1, h2⟩
      · obtain ⟨t0, hp, _⟩ := Res.prependTrace_eq_exited he
        exact prompt_oidc_provider_url_ne_exited hp
      · exact ih h2

theorem validate_ne_exited {f : Nat} {s : GuidedContext} {i : List String}
    {c : Nat} {t : List Q} : validate_oidc_provider_url f s i ≠ .exited c t := by
  intro h
  unfold validate_oidc_provider_url at h
  rcases Res.bind_eq_exited h with ⟨t', he⟩ | ⟨s1, i1, t1, t2, h1, h2⟩
  · exact validate_loop1_ne_exited he
  · exact validate_loop2_ne_exited h2

theorem prompt_subject_claim_ne_exited {s : GuidedContext} {i : List String}
    {c : Nat} {t : List Q} : prompt_subject_claim s i ≠ .exited c t := by
  intro h
  unfold prompt_subject_claim at h
  split at h
  · rcases Res.bind_eq_exited h with ⟨t', he⟩ | ⟨s1, i1, t1, t2, h1, h2⟩
    · split at he
      · simp at he
      · exact prompt_github_org_ne_exited he
    · rcases Res.bind_eq_exited h2 with ⟨t', he⟩ | ⟨s2, i2, t3, t4, h3, h4⟩
      · split at he
        · simp at he
        · exact prompt_github_repo_ne_exited he
      · split at h4
        · simp at h4
        · exact prompt_deployment_branch_ne_exited h4
  · split at h
    · rcases Res.bind_eq_exited h with ⟨t', he⟩ | ⟨s1, i1, t1, t2, h1, h2⟩
      · split at he
        · simp at he
        · exact prompt_gitlab_group_ne_exited he
      · rcases Res.bind_eq_exited h2 with ⟨t', he⟩ | ⟨s2, i2, t3, t4, h3, h4⟩
        · split at he
          · simp at he
          · exact prompt_gitlab_project_ne_exited he
        · split at h4
          · simp at h4
          · exact prompt_deployment_branch_ne_exited h4
    · split at h
      · split at h
        · simp at h
        · exact prompt_bitbucket_repo_uuid_ne_exited h
      · simp at h

theorem prompt_account_id_exited_zero {ext : Collab} : ∀ {f : Nat} {s : GuidedContext}
    {i : List String} {c : Nat} {t : List Q},
    prompt_account_id ext f s i = .exited c t → c = 0 := by
  intro f
  induction f with
  | zero => intro s i c t h; simp [prompt_account_id] at h
  | succ f ih =>
    intro s i c t h
    rw [prompt_account_id] at h
    split at h
    · simp at h
    · split at h
      · simp only [Res.exited.injEq] at h
        exact h.1.symm
      · split at h
        · simp at h
        · split at h
          · simp at h
          · obtain ⟨t0, hrec, _⟩ := Res.prependTrace_eq_exited h
            exact ih hrec

theorem stage_step_ne_exited {s : GuidedContext} {i : List String} {c : Nat} {t : List Q} :
    stage_step s i ≠ .exited c t := by
  unfold stage_step
  split
  · simp
  · exact prompt_stage_configuration_name_ne_exited

theorem region_step_ne_exited {ext : Collab} {s : GuidedContext} {i : List String}
    {c : Nat} {t : List Q} : region_step ext s i ≠ .exited c t := by
  unfold region_step
  split
  · simp
  · exact prompt_region_name_ne_exited

theorem perms_step_ne_exited {s : GuidedContext} {i : List String} {c : Nat} {t : List Q} :
    perms_step s i ≠ .exited c t := by
  unfold perms_step
  split
  · exact prompt_permissions_provider_ne_exited
  · simp

theorem oidc_or_user_step_ne_exited {s : GuidedContext} {i : List String}
    {c : Nat} {t : List Q} : oidc_or_user_step s i ≠ .exited c t := by
  intro h
  unfold oidc_or_user_step at h
  split at h
  · rcases Res.bind_eq_exited h with ⟨t', he⟩ | ⟨s1, i1, t1, t2, h1, h2⟩
    · split at he
      · simp at he
      · exact prompt_oidc_provider_ne_exited he
    · rcases Res.bind_eq_exited h2 with ⟨t', he⟩ | ⟨s2, i2, t3, t4, h3, h4⟩
      · split at he
        · simp at he
        · exact prompt_oidc_provider_url_ne_exited he
      · rcases Res.bind_eq_exited h4 with ⟨t', he⟩ | ⟨s3, i3, t5, t6, h5, h6⟩
        · exact validate_ne_exited he
        · rcases Res.bind_eq_exited h6 with ⟨t', he⟩ | ⟨s4, i4, t7, t8, h7, h8⟩
          · split at he
            · simp at he
            · exact prompt_oidc_client_id_ne_exited he
          · exact prompt_subject_claim_ne_exited h8
  · split at h
    · simp at h
    · exact prompt_pipeline_user_ne_exited h

theorem exec_role_step_ne_exited {s : GuidedContext} {i : List String}
    {c : Nat} {t : List Q} : exec_role_step s i ≠ .exited c t := by
  unfold exec_role_step
  split
  · simp
  · exact prompt_pipeline_execution_role_ne_exited

theorem cfn_role_step_ne_exited {s : GuidedContext} {i : List String}
    {c : Nat} {t : List Q} : cfn_role_step s i ≠ .exited c t := by
  unfold cfn_role_step
  split
  · simp
  · exact prompt_cloudformation_execution_role_ne_exited

theorem bucket_step_ne_exited {s : GuidedContext} {i : List String}
    {c : Nat} {t : List Q} : bucket_step s i ≠ .exited c t := by
  unfold bucket_step
  split
  · simp
  · exact prompt_artifacts_bucket_ne_exited

theorem image_step_ne_exited {s : GuidedContext} {i : List String}
    {c : Nat} {t : List Q} : image_step s i ≠ .exited c t := by
  unfold image_step
  split
  · simp
  · exact prompt_image_repository_ne_exited

theorem runInitial_exited_zero {ext : Collab} {s : GuidedContext} {i : List String}
    {c : Nat} {t : List Q} (h : runInitial ext s i = .exited c t) : c = 0 := by
  unfold runInitial at h
  rcases Res.bind_eq_exited h with ⟨t', he⟩ | ⟨s1, i1, t1, t2, h1, h2⟩
  · exact absurd he stage_step_ne_exited
  · rcases Res.bind_eq_exited h2 with ⟨t', he⟩ | ⟨s2, i2, t3, t4, h3, h4⟩
    · exact prompt_account_id_exited_zero he
    · rcases Res.bind_eq_exited h4 with ⟨t', he⟩ | ⟨s3, i3, t5, t6, h5, h6⟩
      · exact absurd he region_step_ne_exited
      · rcases Res.bind_eq_exited h6 with ⟨t', he⟩ | ⟨s4, i4, t7, t8, h7, h8⟩
        · exact absurd he perms_step_ne_exited
        · rcases Res.bind_eq_exited h8 with ⟨t', he⟩ | ⟨s5, i5, t9, t10, h9, h10⟩
          · exact absurd he oidc_or_user_step_ne_exited
          · rcases Res.bind_eq_exited h10 with ⟨t', he⟩ | ⟨s6, i6, t11, t12, h11, h12⟩
            · exact absurd he exec_role_step_ne_exited
            · rcases Res.bind_eq_exited h12 with ⟨t', he⟩ | ⟨s7, i7, t13, t14, h13, h14⟩
              · exact absurd he cfn_role_step_ne_exited
              · rcases Res.bind_eq_exited h14 with ⟨t', he⟩ | ⟨s8, i8, t15, t16, h15, h16⟩
                · exact absurd he bucket_step_ne_exited
                · exact absurd h16 image_step_ne_exited

theorem runEd_exited_zero {ext : Collab} {e : Ed} {s : GuidedContext} {i : List String}
    {c : Nat} {t : List Q} (h : runEd ext e s i = .exited c t) : c = 0 := by
  cases e with
  | edAccount => exact prompt_account_id_exited_zero h
  | edStageName => exact absurd h prompt_stage_configuration_name_ne_exited
  | edRegion => exact absurd h prompt_region_name_ne_exited
  | edOidcUrl => exact absurd h prompt_oidc_provider_url_ne_exited
  | edOidcClientId => exact absurd h prompt_oidc_client_id_ne_exited
  | edGithubOrg => exact absurd h prompt_github_org_ne_exited
  | edGithubRepo => exact absurd h prompt_github_repo_ne_exited
  | edDeploymentBranch => exact absurd h prompt_deployment_branch_ne_exited
  | edGitlabGroup => exact absurd h prompt_gitlab_group_ne_exited
  | edGitlabProject => exact absurd h prompt_gitlab_project_ne_exited
  | edBitbucketUuid => exact absurd h prompt_bitbucket_repo_uuid_ne_exited
  | edPipelineUser => exact absurd h prompt_pipeline_user_ne_exited
  | edPipelineExecRole => exact absurd h prompt_pipeline_execution_role_ne_exited
  | edCfnRole => exact absurd h prompt_cloudformation_execution_role_ne_exited
  | edArtifactsBucket => exact absurd h prompt_artifacts_bucket_ne_exited
  | edImageRepo => exact absurd h prompt_image_repository_ne_exited

theorem summaryLoop_exited_zero {ext : Collab} : ∀ {f : Nat} {s : GuidedContext}
    {i : List String} {c : Nat} {t : List Q},
    summaryLoop ext f s i = .exited c t → c = 0 := by
  intro f
  induction f with
  | zero => intro s i c t h; simp [summaryLoop] at h
  | succ f ih =>
    intro s i c t h
    rw [summaryLoop] at h
    split at h
    · simp at h
    · split at h
      · simp at h
      · split at h
        · simp at h
        · split at h
          · simp at h
          · split at h
            · simp at h
            · rcases Res.bind_eq_exited h with ⟨t', he⟩ | ⟨s1, i1, t1, t2, h1, h2⟩
              · exact runEd_exited_zero he
              · exact ih h2

theorem run_exited_zero {ext : Collab} {s : GuidedContext} {i : List String}
    {c : Nat} {t : List Q} (h : run ext s i = .exited c t) : c = 0 := by
  unfold run at h
  rcases Res.bind_eq_exited h with ⟨t', he⟩ | ⟨s1, i1, t1, t2, h1, h2⟩
  · exact runInitial_exited_zero he
  · exact summaryLoop_exited_zero h2

theorem Res.prependTrace_nil (r : Res) : r.prependTrace [] = r := by
  cases r <;> simp [Res.prependTrace]

/-- C3: the OIDC URL validation gate returns normally only when the
stored URL is non-empty and contains https:// as a substring; it never
exits the process; and when the stored URL lacks the scheme it echoes
the scheme guidance, re-prompts the URL, and loops without advancing. -/
theorem validate_oidc_provider_url_gate (fuel : Nat) (s : GuidedContext)
    (inputs : List String) :
    (∀ s' r t, validate_oidc_provider_url fuel s inputs = .ok s' r t →
      truthy s'.oidc_config.oidc_provider_url = true ∧
      strContainsSub (s'.oidc_config.oidc_provider_url.getD "") "https://" = true) ∧
    (∀ c t, validate_oidc_provider_url fuel s inputs ≠ .exited c t) ∧
    (truthy s.oidc_config.oidc_provider_url = true →
      strContainsSub (s.oidc_config.oidc_provider_url.getD "") "https://" = false →
      validate_oidc_provider_url (fuel + 1) s inputs =
        ((prompt_oidc_provider_url s inputs).prependTrace [Q.echoSchemeGuidance]).bind
          (fun s' i' => validate_loop2 fuel s' i')) := by
  refine ⟨?_, ?_, ?_⟩
  · intro s' r t h
    have hc := validate_ok_contains h
    exact ⟨contains_https_truthy hc, hc⟩
  · intro c t
    exact validate_ne_exited
  · intro h1 h2
    have l1 : validate_loop1 (fuel + 1) s inputs = .ok s inputs [] := by
      rw [validate_loop1]
      simp [h1]
    rw [validate_oidc_provider_url, l1]
    rw [Res.bind, Res.prependTrace_nil]
    rw [validate_loop2]
    simp [h2]

/-- C3 witness: a state whose URL is gitlab.com (no scheme) re-prompts,
and after the corrected answer the gate's result satisfies the
postcondition. -/
theorem validate_oidc_provider_url_gate_witness :
    validate_oidc_provider_url 2
      { emptyCtx with oidc_config := oidcCfg none (some "gitlab.com") none }
      ["https://gitlab.com"] =
      .ok { emptyCtx with oidc_config := oidcCfg none (some "https://gitlab.com") none }
        [] [Q.echoSchemeGuidance, Q.oidcUrl] ∧
    truthy ({ emptyCtx with oidc_config := oidcCfg none (some "https://gitlab.com") none } :
      GuidedContext).oidc_config.oidc_provider_url = true ∧
    strContainsSub
      (({ emptyCtx with
          oidc_config := oidcCfg none (some "https://gitlab.com") none } :
        GuidedContext).oidc_config.oidc_provider_url.getD "") "https://" = true := by
  refine ⟨by decide, ?_⟩
  exact (validate_oidc_provider_url_gate 2
    { emptyCtx with oidc_config := oidcCfg none (some "gitlab.com") none }
    ["https://gitlab.com"]).1
    { emptyCtx with oidc_config := oidcCfg none (some "https://gitlab.com") none }
    [] [Q.echoSchemeGuidance, Q.oidcUrl] (by decide)

/-- C4 counterexample: the gate accepts a URL that merely contains
https:// somewhere without re-prompting, so the accepted URL does not
start with the scheme prefix as the claim states. -/
theorem validate_oidc_provider_url_accepts_non_prefix :
    validate_oidc_provider_url 5
      { emptyCtx with oidc_config := oidcCfg none (some "see https://example.com") none }
      [] =
      .ok { emptyCtx with oidc_config := oidcCfg none (some "see https://example.com") none }
        [] [] ∧
    listPrefix "https://".data ("see https://example.com").data = false := by
  exact ⟨by decide, by decide⟩

/-- C4 (amended): whenever the validation gate has returned, the stored
URL contains https:// as a substring (the source checks containment with
str.find, not a prefix). -/
theorem validate_oidc_provider_url_substring_invariant (fuel : Nat)
    (s s' : GuidedContext) (inputs r : List String) (t : List Q)
    (h : validate_oidc_provider_url fuel s inputs = .ok s' r t) :
    strContainsSub (s'.oidc_config.oidc_provider_url.getD "") "https://" = true :=
  validate_ok_contains h

/-- C4 witness: a valid URL passes the gate unchanged and satisfies the
substring invariant. -/
theorem validate_oidc_provider_url_substring_invariant_witness :
    validate_oidc_provider_url 1
      { emptyCtx with oidc_config := oidcCfg none (some "https://gitlab.com") none } [] =
      .ok { emptyCtx with oidc_config := oidcCfg none (some "https://gitlab.com") none }
        [] [] ∧
    strContainsSub
      (({ emptyCtx with
          oidc_config := oidcCfg none (some "https://gitlab.com") none } :
        GuidedContext).oidc_config.oidc_provider_url.getD "") "https://" = true :=
  ⟨by decide, validate_oidc_provider_url_substring_invariant 1
    { emptyCtx with oidc_config := oidcCfg none (some "https://gitlab.com") none }
    { emptyCtx with oidc_config := oidcCfg none (some "https://gitlab.com") none }
    [] [] [] (by decide)⟩

/-- C5 counterexample: with the registry identifier empty and the user
declining the IMAGE confirmation, create_image_repository is false while
not present(identifier) is true, so the claimed equality fails. -/
theorem prompt_image_repository_decline_breaks_derived_equality :
    (Res.stateOf? (prompt_image_repository emptyCtx ["n"])).map
      (fun s' => decide (s'.create_image_repository =
        !(truthy s'.image_repository_arn))) = some false := by
  decide

/-- C5 (amended): after the registry-identifier handler, if the user
confirmed having IMAGE functions then create_image_repository equals
not present(identifier); if the user declined, create_image_repository
is false regardless of the stored identifier. -/
theorem prompt_image_repository_create_flag (s : GuidedContext) (inputs : List String) :
    (∀ rest, promptConfirm inputs = some (false, rest) →
      prompt_image_repository s inputs =
        .ok { s with create_image_repository := false } rest [Q.imageRepository]) ∧
    (∀ rest s' r t, promptConfirm inputs = some (true, rest) →
      prompt_image_repository s inputs = .ok s' r t →
      s'.create_image_repository = !(truthy s'.image_repository_arn)) := by
  constructor
  · intro rest h
    simp [prompt_image_repository, h]
  · intro rest s' r t hc h
    simp only [prompt_image_repository, hc] at h
    split at h
    · simp at h
    · simp only [Res.ok.injEq] at h
      rw [← h.1]

/-- C5 witness: declining with an empty identifier leaves the state
with create_image_repository false. -/
theorem prompt_image_repository_create_flag_witness :
    promptConfirm ["n"] = some (false, []) ∧
    prompt_image_repository emptyCtx ["n"] =
      .ok { emptyCtx with create_image_repository := false } [] [Q.imageRepository] :=
  ⟨by decide, (prompt_image_repository_create_flag emptyCtx ["n"]).1 [] (by decide)⟩

/-- C6: with the registry identifier empty, declining the IMAGE
confirmation sets create_image_repository to false and changes nothing
else: the result state is exactly the input state with that one field
set to false, so the identifier stays empty. -/
theorem prompt_image_repository_decline_frame (s : GuidedContext) (inputs rest : List String)
    (h0 : truthy s.image_repository_arn = false)
    (h : promptConfirm inputs = some (false, rest)) :
    prompt_image_repository s inputs =
      .ok { s with create_image_repository := false } rest [Q.imageRepository] ∧
    ({ s with create_image_repository := false } : GuidedContext).image_repository_arn =
      s.image_repository_arn ∧
    truthy ({ s with create_image_repository := false } :
      GuidedContext).image_repository_arn = false := by
  refine ⟨?_, rfl, h0⟩
  simp [prompt_image_repository, h]

/-- C6 witness: the empty state with a declined confirmation. -/
theorem prompt_image_repository_decline_frame_witness :
    truthy emptyCtx.image_repository_arn = false ∧
    promptConfirm ["n"] = some (false, []) ∧
    (prompt_image_repository emptyCtx ["n"] =
      .ok { emptyCtx with create_image_repository := false } [] [Q.imageRepository] ∧
    ({ emptyCtx with create_image_repository := false } :
      GuidedContext).image_repository_arn = emptyCtx.image_repository_arn ∧
    truthy ({ emptyCtx with create_image_repository := false } :
      GuidedContext).image_repository_arn = false) :=
  ⟨by decide, by decide,
    prompt_image_repository_decline_frame emptyCtx ["n"] [] (by decide) (by decide)⟩

/-- C9: selecting q at the credential-source prompt exits immediately
with status 0 having asked nothing beyond the credential question; run
can only ever exit with status 0; and the URL validation gate never
exits the process, it only re-prompts. -/
theorem credential_quit_and_exit_codes :
    (∀ (ext : Collab) (f : Nat) (s : GuidedContext) (inputs rest : List String),
      promptChoice (accountChoices ext) none inputs = some ("q", rest) →
      prompt_account_id ext (f + 1) s inputs = .exited 0 [Q.accountId]) ∧
    (∀ (ext : Collab) (s : GuidedContext) (inputs rest : List String),
      truthy s.stage_configuration_name = true →
      promptChoice (accountChoices ext) none inputs = some ("q", rest) →
      run ext s inputs = .exited 0 [Q.accountId]) ∧
    (∀ (ext : Collab) (s : GuidedContext) (inputs : List String) (c : Nat) (t : List Q),
      run ext s inputs = .exited c t → c = 0) ∧
    (∀ (f : Nat) (s : GuidedContext) (inputs : List String) (c : Nat) (t : List Q),
      validate_oidc_provider_url f s inputs ≠ .exited c t) := by
  refine ⟨?_, ?_, ?_, ?_⟩
  · intro ext f s inputs rest h
    rw [prompt_account_id, h]
    simp
  · intro ext s inputs rest hstage hq
    have hst : stage_step s inputs = .ok s inputs [] := by
      unfold stage_step
      simp [hstage]
    have hacc : prompt_account_id ext (inputs.length + 1) s inputs =
        .exited 0 [Q.accountId] := by
      rw [prompt_account_id, hq]
      simp
    rw [run, runInitial, hst, Res.bind, Res.prependTrace_nil, hacc]
    simp [Res.bind, Res.prependTrace_nil]
  · intro ext s inputs c t h
    exact run_exited_zero h
  · intro f s inputs c t
    exact validate_ne_exited

/-- C9 witness: with the stage name pre-seeded, answering q to the
credential question exits with status 0 having asked only the account
question. -/
theorem credential_quit_and_exit_codes_witness :
    truthy ({ emptyCtx with stage_configuration_name := some "st" } :
      GuidedContext).stage_configuration_name = true ∧
    promptChoice (accountChoices extW) none ["q"] = some ("q", []) ∧
    run extW { emptyCtx with stage_configuration_name := some "st" } ["q"] =
      .exited 0 [Q.accountId] :=
  ⟨by decide, by decide, credential_quit_and_exit_codes.2.1 extW
    { emptyCtx with stage_configuration_name := some "st" } ["q"] [] (by decide)
    (by decide)⟩

theorem prompt_account_id_ok_success {ext : Collab} : ∀ {f : Nat} {s s' : GuidedContext}
    {i r : List String} {t : List Q}, prompt_account_id ext f s i = .ok s' r t →
    ∃ a, ext.getAccountId s'.profile = .ok a := by
  intro f
  induction f with
  | zero => intro s s' i r t h; simp [prompt_account_id] at h
  | succ f ih =>
    intro s s' i r t h
    rw [prompt_account_id] at h
    split at h
    · simp at h
    · split at h
      · simp at h
      · split at h
        · simp at h
        · rename_i prof hres
          split at h
          · rename_i a hacc
            simp only [Res.ok.injEq] at h
            refine ⟨a, ?_⟩
            rw [← h.1]
            exact hacc
          · obtain ⟨t0, hrec, _⟩ := Res.prependTrace_eq_ok h
            exact ih hrec

/-- C8: when resolving the identity for the selected credential source
fails, the failure reason is reported to the user and the whole
credential question is re-run on the remaining script; a normal return
implies the account id resolved for the stored profile; and the
question only ever exits with status 0 (the explicit quit), so a
credentials error is never fatal. -/
theorem prompt_account_id_retry_on_credentials_error :
    (∀ (ext : Collab) (f : Nat) (s : GuidedContext) (inputs rest : List String)
       (ans : String) (prof : Option String) (msg : String),
      promptChoice (accountChoices ext) none inputs = some (ans, rest) →
      ans ≠ "q" →
      resolveProfile ext ans = some prof →
      ext.getAccountId prof = .error msg →
      prompt_account_id ext (f + 1) s inputs =
        (prompt_account_id ext f { s with profile := prof } rest).prependTrace
          [Q.accountId, Q.echoCredentialsError msg]) ∧
    (∀ (ext : Collab) (f : Nat) (s s' : GuidedContext) (inputs r : List String) (t : List Q),
      prompt_account_id ext f s inputs = .ok s' r t →
      ∃ a, ext.getAccountId s'.profile = .ok a) ∧
    (∀ (ext : Collab) (f : Nat) (s : GuidedContext) (inputs : List String) (c : Nat)
       (t : List Q), prompt_account_id ext f s inputs = .exited c t → c = 0) := by
  refine ⟨?_, ?_, ?_⟩
  · intro ext f s inputs rest ans prof msg hpc hq hres herr
    rw [prompt_account_id, hpc]
    simp [hq, hres, herr]
  · intro ext f s s' inputs r t h
    exact prompt_account_id_ok_success h
  · intro ext f s inputs c t h
    exact prompt_account_id_exited_zero h

/-- C8 witness: selecting the only named profile under a collaborator
whose resolver always fails reports the reason and restarts the
question on the remaining (empty) script. -/
theorem prompt_account_id_retry_on_credentials_error_witness :
    promptChoice (accountChoices extFailW) none ["2"] = some ("2", []) ∧
    resolveProfile extFailW "2" = some (some "dev") ∧
    extFailW.getAccountId (some "dev") = .error "could not resolve credentials" ∧
    prompt_account_id extFailW 1 emptyCtx ["2"] =
      (prompt_account_id extFailW 0 { emptyCtx with profile := some "dev" } []).prependTrace
        [Q.accountId, Q.echoCredentialsError "could not resolve credentials"] :=
  ⟨by decide, by decide, by decide,
    prompt_account_id_retry_on_credentials_error.1 extFailW 0 emptyCtx ["2"] [] "2"
      (some "dev") "could not resolve credentials" (by decide) (by decide) (by decide)
      (by decide)⟩

/-- C2: the review list is a pure function of the current state with
the claimed composition: when the account id resolves, the rows are
exactly the account, stage-name and region rows, then (with OIDC
chosen) the URL and client-id rows followed by the chosen provider's
subject-claim rows, otherwise the single pipeline-user row, and always
the pipeline-execution-role, CloudFormation-role, artifacts-bucket and
image-registry rows last; recomputing on the same state yields the
identical label/editor list. -/
theorem get_user_inputs_composition (ext : Collab) (s : GuidedContext) (acct : String)
    (h : ext.getAccountId s.profile = .ok acct) :
    get_user_inputs ext s = .ok (
      [("Account: " ++ acct, Ed.edAccount),
       ("Stage configuration name: " ++ optStr s.stage_configuration_name, Ed.edStageName),
       ("Region: " ++ optStr s.region, Ed.edRegion)] ++
      (if s.permissions_provider = some OPEN_ID_CONNECT then
        [("OIDC identity provider URL: " ++ optStr s.oidc_config.oidc_provider_url,
          Ed.edOidcUrl),
         ("OIDC client ID: " ++ optStr s.oidc_config.oidc_client_id, Ed.edOidcClientId)] ++
        (if s.oidc_config.oidc_provider = some GITHUB_ACTIONS then
          [("GitHub organization: " ++ optStr s.github_config.github_org, Ed.edGithubOrg),
           ("GitHub repository: " ++ optStr s.github_config.github_repo, Ed.edGithubRepo),
           ("Deployment branch:  " ++ optStr s.github_config.deployment_branch,
            Ed.edDeploymentBranch)]
        else if s.oidc_config.oidc_provider = some GITLAB then
          [("GitLab group: " ++ optStr s.gitlab_config.gitlab_group, Ed.edGitlabGroup),
           ("GitLab project: " ++ optStr s.gitlab_config.gitlab_project, Ed.edGitlabProject),
           ("Deployment branch: " ++ optStr s.gitlab_config.deployment_branch,
            Ed.edDeploymentBranch)]
        else if s.oidc_config.oidc_provider = some BITBUCKET then
          [("Bitbucket repository UUID: " ++ optStr s.bitbucket_config.bitbucket_repo_uuid,
            Ed.edBitbucketUuid)]
        else [])
      else
        [(if truthy s.pipeline_user_arn then
            "Pipeline user ARN: " ++ optStr s.pipeline_user_arn
          else "Pipeline user: [to be created]", Ed.edPipelineUser)]) ++
      [(if truthy s.pipeline_execution_role_arn then
          "Pipeline execution role ARN: " ++ optStr s.pipeline_execution_role_arn
        else "Pipeline execution role: [to be created]", Ed.edPipelineExecRole),
       (if truthy s.cloudformation_execution_role_arn then
          "CloudFormation execution role ARN: " ++ optStr s.cloudformation_execution_role_arn
        else "CloudFormation execution role: [to be created]", Ed.edCfnRole),
       (if truthy s.artifacts_bucket_arn then
          "Artifacts bucket ARN: " ++ optStr s.artifacts_bucket_arn
        else "Artifacts bucket: [to be created]", Ed.edArtifactsBucket),
       (if truthy s.image_repository_arn then
          "ECR image repository ARN: " ++ optStr s.image_repository_arn
        else
          "ECR image repository: [" ++
            (if s.create_image_repository then "to be created" else "skipped") ++ "]",
        Ed.edImageRepo)]) ∧
    get_user_inputs ext s = get_user_inputs ext s := by
  refine ⟨?_, rfl⟩
  unfold get_user_inputs
  rw [h]

/-- C2 witness: on the empty state under the sample collaborator the
list is the eight IAM-mode rows. -/
theorem get_user_inputs_composition_witness :
    extW.getAccountId emptyCtx.profile = .ok "123456789012" ∧
    get_user_inputs extW emptyCtx = .ok
      [("Account: 123456789012", Ed.edAccount),
       ("Stage configuration name: None", Ed.edStageName),
       ("Region: None", Ed.edRegion),
       ("Pipeline user: [to be created]", Ed.edPipelineUser),
       ("Pipeline execution role: [to be created]", Ed.edPipelineExecRole),
       ("CloudFormation execution role: [to be created]", Ed.edCfnRole),
       ("Artifacts bucket: [to be created]", Ed.edArtifactsBucket),
       ("ECR image repository: [skipped]", Ed.edImageRepo)] :=
  ⟨by rfl, ((get_user_inputs_composition extW emptyCtx "123456789012" (by rfl)).1).trans
    (by decide)⟩

theorem get_user_inputs_length {ext : Collab} {s : GuidedContext}
    {lst : List (String × Ed)} (h : get_user_inputs ext s = .ok lst) :
    lst.length = 8 ∨ lst.length = 9 ∨ lst.length = 10 ∨ lst.length = 12 := by
  unfold get_user_inputs at h
  split at h
  · simp at h
  · simp only [Except.ok.injEq] at h
    subst h
    by_cases hp : s.permissions_provider = some OPEN_ID_CONNECT
    · rw [if_pos hp]
      by_cases hg : s.oidc_config.oidc_provider = some GITHUB_ACTIONS
      · rw [if_pos hg]
        simp
      · rw [if_neg hg]
        by_cases hl : s.oidc_config.oidc_provider = some GITLAB
        · rw [if_pos hl]
          simp
        · rw [if_neg hl]
          by_cases hb : s.oidc_config.oidc_provider = some BITBUCKET
          · rw [if_pos hb]
            simp
          · rw [if_neg hb]
            simp
    · rw [if_neg hp]
      simp

theorem summaryChoices_mem {n : Nat} {a : String} (h : a ∈ summaryChoices n) :
    a = "0" ∨ ∃ i, i < n ∧ a = toString (i + 1) := by
  unfold summaryChoices at h
  rcases List.mem_cons.mp h with h | h
  · exact Or.inl h
  · obtain ⟨i, hi, rfl⟩ := List.mem_map.mp h
    exact Or.inr ⟨i, List.mem_range.mp hi, rfl⟩

theorem strToNat_toString_small : ∀ i < 12, strToNat? (toString (i + 1)) = some (i + 1) := by
  decide

/-- C10: the accepted summary choice is always in the 0..length set of
the freshly rebuilt row list; a nonzero choice parses to an index within
the list, so the editor lookup succeeds and the loop runs that editor
and continues; choice 0 is the only way this iteration returns
normally. -/
theorem summary_loop_choice_safety (ext : Collab) (s : GuidedContext)
    (lst : List (String × Ed)) (inputs rest : List String) (choice : String)
    (h1 : get_user_inputs ext s = .ok lst)
    (h2 : promptChoice (summaryChoices lst.length) (some "0") inputs =
      some (choice, rest)) :
    (choice = "0" → ∀ fuel, summaryLoop ext (fuel + 1) s inputs = .ok s rest []) ∧
    (choice ≠ "0" → ∃ k entry, strToNat? choice = some k ∧ 1 ≤ k ∧ k - 1 < lst.length ∧
      lst.get? (k - 1) = some entry ∧
      ∀ fuel, summaryLoop ext (fuel + 1) s inputs =
        (runEd ext entry.2 s rest).bind (fun s' r' => summaryLoop ext fuel s' r')) := by
  constructor
  · intro hc fuel
    subst hc
    have h0 : strToNat? "0" = some 0 := by decide
    rw [summaryLoop]
    simp only [h1, h2, h0]
    simp
  · intro hc
    have hm := promptChoice_mem h2
    have hcs : choice ∈ summaryChoices lst.length := by
      rcases hm with hm | hm
      · exact hm
      · injection hm with hm
        exact absurd hm.symm hc
    rcases summaryChoices_mem hcs with h0 | ⟨i, hi, rfl⟩
    · exact absurd h0 hc
    · have hlen := get_user_inputs_length h1
      have hi12 : i < 12 := by rcases hlen with h | h | h | h <;> omega
      have hk : strToNat? (toString (i + 1)) = some (i + 1) :=
        strToNat_toString_small i hi12
      obtain ⟨entry, hent⟩ : ∃ e, lst.get? i = some e :=
        ⟨lst.get ⟨i, hi⟩, (List.get?_eq_get hi)⟩
      refine ⟨i + 1, entry, hk, by omega, by simpa using hi, by simpa using hent, ?_⟩
      intro fuel
      rw [summaryLoop]
      simp only [h1, h2, hk, Nat.add_sub_cancel, hent]
      simp

/-- C10 witness: on the empty state the row list has eight entries and
choice 1 selects the account row's editor. -/
theorem summary_loop_choice_safety_witness :
    get_user_inputs extW emptyCtx = .ok
      [("Account: 123456789012", Ed.edAccount),
       ("Stage configuration name: None", Ed.edStageName),
       ("Region: None", Ed.edRegion),
       ("Pipeline user: [to be created]", Ed.edPipelineUser),
       ("Pipeline execution role: [to be created]", Ed.edPipelineExecRole),
       ("CloudFormation execution role: [to be created]", Ed.edCfnRole),
       ("Artifacts bucket: [to be created]", Ed.edArtifactsBucket),
       ("ECR image repository: [skipped]", Ed.edImageRepo)] ∧
    promptChoice (summaryChoices 8) (some "0") ["1"] = some ("1", []) ∧
    (∃ k entry, strToNat? "1" = some k ∧ 1 ≤ k ∧ k - 1 < 8 ∧
      [("Account: 123456789012", Ed.edAccount),
       ("Stage configuration name: None", Ed.edStageName),
       ("Region: None", Ed.edRegion),
       ("Pipeline user: [to be created]", Ed.edPipelineUser),
       ("Pipeline execution role: [to be created]", Ed.edPipelineExecRole),
       ("CloudFormation execution role: [to be created]", Ed.edCfnRole),
       ("Artifacts bucket: [to be created]", Ed.edArtifactsBucket),
       ("ECR image repository: [skipped]", Ed.edImageRepo)].get? (k - 1) = some entry ∧
      ∀ fuel, summaryLoop extW (fuel + 1) emptyCtx ["1"] =
        (runEd extW entry.2 emptyCtx []).bind
          (fun s' r' => summaryLoop extW fuel s' r')) :=
  ⟨by decide, by decide,
    (summary_loop_choice_safety extW emptyCtx
      [("Account: 123456789012", Ed.edAccount),
       ("Stage configuration name: None", Ed.edStageName),
       ("Region: None", Ed.edRegion),
       ("Pipeline user: [to be created]", Ed.edPipelineUser),
       ("Pipeline execution role: [to be created]", Ed.edPipelineExecRole),
       ("CloudFormation execution role: [to be created]", Ed.edCfnRole),
       ("Artifacts bucket: [to be created]", Ed.edArtifactsBucket),
       ("ECR image repository: [skipped]", Ed.edImageRepo)]
      ["1"] [] "1" (by decide) (by decide)).2 (by decide)⟩
